import Mathlib

/-!
# blockchain-client-app: the request gateway and the upstream client

A shallow embedding of the HTTP handlers of `pkg/api/server.go` and of the
JSON-RPC client of `pkg/blockchain/client.go`.

Modelling conventions.

* JSON texts are handled at the level of their syntax tree (`JSON`): a byte
  slice handed to `encoding/json` is either a well-formed JSON text, kept as
  its tree, or it is not (`Bytes`).  Object members keep their order and
  may repeat, exactly as the decoder meets them.
* A Go `string` is a Lean `String` (Unicode text); a Go `int` is an `Int`
  (the 64-bit range is checked where a number is decoded into an `int`).
* A Go `error` is `Option String`: `none` is the nil error, `some m` an error
  whose `Error()` text is `m`.
* The client behind the `BlockchainClient` interface is a pair of functions;
  every handler returns, next to the response it wrote, the list of calls it
  made on the client.
-/

namespace BlockchainClientApp

/-! ## JSON values and byte slices -/

/-- Syntax tree of a JSON text.  `int` is a number literal without fraction or
exponent, `real` any other number literal (kept as written). -/
inductive JSON where
  | null
  | bool (b : Bool)
  | int (n : Int)
  | real (lit : String)
  | str (s : String)
  | arr (xs : List JSON)
  | obj (kvs : List (String × JSON))

/-- Byte slice as `encoding/json` sees it: a well-formed JSON text (with the
value it denotes) or any other sequence of bytes (the empty one included). -/
inductive Bytes where
  | json (v : JSON)
  | other (raw : String)

/-- Go `json.RawMessage`: `none` is the nil slice. -/
abbrev RawMessage := Option Bytes

/-- Length test used by `omitempty` on a `json.RawMessage`: a nil or empty
slice is omitted.  A well-formed JSON text is never empty. -/
def RawMessage.isEmpty : RawMessage → Bool
  | none => true
  | some (.json _) => false
  | some (.other raw) => raw.data.isEmpty

/-- Method `json.RawMessage.MarshalJSON` followed by the encoder's validation
of its output: nil encodes as `null`, a well-formed text as itself, anything
else is an encoding error. -/
def RawMessage.marshal : RawMessage → Option JSON
  | none => some .null
  | some (.json v) => some v
  | some (.other _) => none

/-- Members of a JSON object with the given key, in order. -/
def JSON.members (key : String) : JSON → List JSON
  | .obj kvs => (kvs.filter (fun kv => kv.1 = key)).map (fun kv => kv.2)
  | _ => []

/-- Whether a JSON value is an object with a member named `key`. -/
def JSON.hasKey (key : String) (j : JSON) : Bool :=
  !(j.members key).isEmpty

/-! ## Decoding into Go values (`json.Unmarshal`) -/

/-- Case folding of one rune of an object key, as the decoder does when it
looks up a struct field: ASCII letters fold to upper case, and the two
non-ASCII runes whose simple fold is an ASCII letter (KELVIN SIGN and LATIN
SMALL LETTER LONG S) fold to it.  Other runes never fold to ASCII, which is
all that matters against the ASCII field names used here. -/
def foldRune (c : Char) : Char :=
  if c.toNat = 0x212A then 'K'
  else if c.toNat = 0x017F then 'S'
  else if 97 ≤ c.toNat ∧ c.toNat ≤ 122 then Char.ofNat (c.toNat - 32)
  else c

/-- Folded form of an object key or field name. -/
def foldName (s : String) : List Char := s.data.map foldRune

/-- Whether the object key `key` selects the struct field tagged `name`
(exact or case-insensitive match). -/
def keyMatches (key name : String) : Bool :=
  key = name || foldName key = foldName name

/-- Decode a JSON value into a Go `string` holding `cur`: `null` leaves it
unchanged, a JSON string replaces it, anything else is a type error. -/
def decodeString (cur : String) : JSON → Option String
  | .null => some cur
  | .str s => some s
  | _ => none

/-- Decode a JSON value into a Go `int` holding `cur`: `null` leaves it
unchanged, an integer literal in the 64-bit range replaces it, anything else
is an error. -/
def decodeInt (cur : Int) : JSON → Option Int
  | .null => some cur
  | .int n => if -(2 : Int) ^ 63 ≤ n ∧ n < (2 : Int) ^ 63 then some n else none
  | _ => none

/-- Value of a run of decimal digits. -/
def digitsValue (ds : List Char) : Nat :=
  ds.foldl (fun acc c => 10 * acc + (c.toNat - 48)) 0

/-- Exponent part of a JSON number literal (nothing, or `e`/`E`, an optional
sign and digits). -/
def parseExponent (cs : List Char) : Option Int :=
  match cs with
  | [] => some 0
  | c :: rest =>
    if c = 'e' ∨ c = 'E' then
      match rest with
      | '-' :: ds =>
        if ds.isEmpty || !ds.all Char.isDigit then none else some (-(digitsValue ds : Int))
      | '+' :: ds =>
        if ds.isEmpty || !ds.all Char.isDigit then none else some (digitsValue ds : Int)
      | ds =>
        if ds.isEmpty || !ds.all Char.isDigit then none else some (digitsValue ds : Int)
    else none

/-- Magnitude of a JSON number literal as a pair (m, e) standing for
m * 10 ^ e: the digits of the integer and fraction parts read as one number,
and the written exponent less the number of fraction digits. -/
def parseNumber (lit : String) : Option (Nat × Int) :=
  let cs := match lit.data with
    | '-' :: rest => rest
    | cs => cs
  let intDigits := cs.takeWhile Char.isDigit
  let afterInt := cs.dropWhile Char.isDigit
  let fracDigits := match afterInt with
    | '.' :: rest => rest.takeWhile Char.isDigit
    | _ => []
  let afterFrac := match afterInt with
    | '.' :: rest => rest.dropWhile Char.isDigit
    | rest => rest
  if intDigits.isEmpty then none
  else (parseExponent afterFrac).map (fun e =>
    (digitsValue (intDigits ++ fracDigits), e - (fracDigits.length : Int)))

/-- Whether `strconv.ParseFloat(s, 64)` accepts a literal of magnitude
m * 10 ^ e: it reports a range error when the value rounds to infinity, that
is from 2 ^ 1024 - 2 ^ 970 = (2 ^ 54 - 1) * 2 ^ 970 on (half a unit in the
last place above the largest float64); a value that rounds to zero is
accepted. -/
def fitsFloat64 (mantissa : Nat) (exponent : Int) : Bool :=
  match exponent with
  | .ofNat k => decide ((mantissa * 10 ^ k) >>> 970 < 2 ^ 54 - 1)
  | .negSucc k => decide (mantissa >>> 970 < (2 ^ 54 - 1) * 10 ^ (k + 1))

mutual
/-- Whether a JSON value decodes into an `interface{}` without error: every
number in it, at any depth, is converted with `strconv.ParseFloat(s, 64)`,
whose error the decoder reports. -/
def JSON.fitsAny : JSON → Bool
  | .int n => fitsFloat64 n.natAbs 0
  | .real lit =>
    match parseNumber lit with
    | some (m, e) => fitsFloat64 m e
    | none => false
  | .arr xs => fitsAnyList xs
  | .obj kvs => fitsAnyMembers kvs
  | _ => true
/-- Whether every element of an array decodes into an `interface{}`. -/
def fitsAnyList : List JSON → Bool
  | [] => true
  | x :: xs => x.fitsAny && fitsAnyList xs
/-- Whether every member of an object decodes into an `interface{}`. -/
def fitsAnyMembers : List (String × JSON) → Bool
  | [] => true
  | kv :: kvs => kv.2.fitsAny && fitsAnyMembers kvs
end

/-- Decode a JSON value into a Go `[]interface{}`: `null` gives the nil slice,
an array gives its elements when each of them decodes into an `interface{}`
without error, anything else is a type error.  The decoded elements are kept
as their JSON trees. -/
def decodeAnySlice : JSON → Option (List JSON)
  | .null => some []
  | .arr xs => if fitsAnyList xs then some xs else none
  | _ => none

/-! ## The data model of `server.go` -/

/-- Go `blockchain.Block`. -/
structure Block where
  Number : String := ""
  Hash : String := ""
  ParentHash : String := ""
  Nonce : String := ""
  Timestamp : String := ""
  Transactions : RawMessage := none
  TransactionCount : Int := 0

/-- Go `RPCRequest`. -/
structure RPCRequest where
  JSONRPC : String := ""
  Method : String := ""
  Params : List JSON := []
  ID : Int := 0

/-- Go `RPCError`. -/
structure RPCError where
  Code : Int
  Message : String

/-- Go `RPCResponse`. -/
structure RPCResponse where
  JSONRPC : String := ""
  Result : RawMessage := none
  Error : Option RPCError := none
  ID : Int := 0

/-- Go `ErrorResponse`. -/
structure ErrorResponse where
  Error : String

/-- Go `BlockNumberResponse`. -/
structure BlockNumberResponse where
  BlockNumber : String

/-- Go `BlockResponse`; `none` is the nil pointer. -/
structure BlockResponse where
  Block : Option Block

/-- One member of a JSON object decoded into an `RPCRequest`; members that
select no field are skipped. -/
def RPCRequest.setField (req : RPCRequest) (kv : String × JSON) : Option RPCRequest :=
  if keyMatches kv.1 "jsonrpc" then
    (decodeString req.JSONRPC kv.2).map (fun s => { req with JSONRPC := s })
  else if keyMatches kv.1 "method" then
    (decodeString req.Method kv.2).map (fun s => { req with Method := s })
  else if keyMatches kv.1 "params" then
    (decodeAnySlice kv.2).map (fun ps => { req with Params := ps })
  else if keyMatches kv.1 "id" then
    (decodeInt req.ID kv.2).map (fun n => { req with ID := n })
  else some req

/-- Call `json.Unmarshal(body, &request)` on a zero `RPCRequest`: `none` when
it returns an error. -/
def unmarshalRPCRequest : Bytes → Option RPCRequest
  | .other _ => none
  | .json .null => some {}
  | .json (.obj kvs) => kvs.foldlM RPCRequest.setField {}
  | .json _ => none

/-! ## Encoding Go values (`json.Marshal`) -/

/-- Call `json.Marshal` on a `Block` value. -/
def Block.marshal (b : Block) : Option JSON :=
  match RawMessage.marshal b.Transactions with
  | none => none
  | some txs =>
    some (.obj [("number", .str b.Number), ("hash", .str b.Hash),
      ("parentHash", .str b.ParentHash), ("nonce", .str b.Nonce),
      ("timestamp", .str b.Timestamp), ("transactions", txs),
      ("transactionCount", .int b.TransactionCount)])

/-- Call `json.Marshal` on a `*Block`: the nil pointer encodes as `null`. -/
def marshalBlockPtr : Option Block → Option JSON
  | none => some .null
  | some b => b.marshal

/-- Encoding of an `RPCError` value. -/
def RPCError.marshal (e : RPCError) : JSON :=
  .obj [("code", .int e.Code), ("message", .str e.Message)]

/-- Call `json.Marshal` on an `RPCResponse`: `result` and `error` carry
`omitempty`. -/
def RPCResponse.marshal (r : RPCResponse) : Option JSON :=
  match (if r.Result.isEmpty then some [] else
          (RawMessage.marshal r.Result).map (fun v => [("result", v)])) with
  | none => none
  | some res =>
    some (.obj ([("jsonrpc", .str r.JSONRPC)] ++ res ++
      (match r.Error with
       | none => []
       | some e => [("error", e.marshal)]) ++ [("id", .int r.ID)]))

/-- Values handed to `writeJSONResponse` by the handlers. -/
inductive ResponseData where
  | error (e : ErrorResponse)
  | blockNumber (b : BlockNumberResponse)
  | block (b : BlockResponse)
  | rpc (r : RPCResponse)

/-- Call `json.Marshal` on the data of a response. -/
def ResponseData.marshal : ResponseData → Option JSON
  | .error e => some (.obj [("error", .str e.Error)])
  | .blockNumber b => some (.obj [("blockNumber", .str b.BlockNumber)])
  | .block b => (marshalBlockPtr b.Block).map (fun v => .obj [("block", v)])
  | .rpc r => r.marshal

/-! ## HTTP requests and responses -/

/-- The parts of an `http.Request` the handlers read.  `Query` is the decoded
query string, one pair per parameter in order of appearance; `Body` is
`none` when reading the body fails. -/
structure Request where
  Method : String
  Query : List (String × String) := []
  Body : Option Bytes := some (.other "")

/-- What a handler leaves in the `http.ResponseWriter`: the status code and
the body; `body = none` when nothing was written because encoding the data
failed (the failure is only logged). -/
structure Response where
  status : Nat
  body : Option JSON

/-- Go `writeJSONResponse`. -/
def writeJSONResponse (statusCode : Nat) (data : ResponseData) : Response :=
  { status := statusCode, body := data.marshal }

/-- Lookup `v[key]` in the `url.Values` of a query: the values given to the
key, in order of appearance. -/
def queryValues (q : List (String × String)) (key : String) : List String :=
  (q.filter (fun kv => kv.1 = key)).map (fun kv => kv.2)

/-- Method `url.Values.Get`: the first value of the key, or the empty string. -/
def queryGet (q : List (String × String)) (key : String) : String :=
  match queryValues q key with
  | [] => ""
  | v :: _ => v

/-! ## The client interface -/

/-- Go `BlockchainClient`: each operation returns its value together with its
error. -/
structure BlockchainClient where
  GetBlockNumber : Unit → String × Option String
  GetBlockByNumber : String → Bool → Option Block × Option String

/-- Go `Server`. -/
structure Server where
  client : BlockchainClient

/-- A call made on the client. -/
inductive ClientCall where
  | getBlockNumber
  | getBlockByNumber (blockNumber : String) (fullTransactions : Bool)

/-- What a handler did: the response written and the client calls made. -/
structure Outcome where
  response : Response
  calls : List ClientCall

/-- Dynamic value of the `result interface{}` variable of `HandleJSONRPC`:
the nil interface, a string, or a `*Block` (possibly the nil pointer, which
is still a non-nil interface value). -/
inductive Result where
  | nil
  | string (s : String)
  | block (p : Option Block)

/-- Comparison `result != nil`. -/
def Result.isNil : Result → Bool
  | .nil => true
  | _ => false

/-- Call `json.Marshal(result)`. -/
def Result.marshal : Result → Option JSON
  | .nil => some .null
  | .string s => some (.str s)
  | .block p => marshalBlockPtr p

/-! ## The handlers -/

/-- The `switch request.Method` of `HandleJSONRPC`: the values of `result` and
`rpcError` after it, and the client calls made. -/
def dispatch (s : Server) (request : RPCRequest) :
    Result × Option RPCError × List ClientCall :=
  if request.Method = "eth_blockNumber" then
    match s.client.GetBlockNumber () with
    | (_, some err) => (.nil, some ⟨-32603, err⟩, [.getBlockNumber])
    | (blockNumber, none) => (.string blockNumber, none, [.getBlockNumber])
  else if request.Method = "eth_getBlockByNumber" then
    if request.Params.length < 2 then
      (.nil, some ⟨-32602, "invalid params for eth_getBlockByNumber"⟩, [])
    else
      match request.Params.get? 0 with
      | some (.str blockNumberParam) =>
        match request.Params.get? 1 with
        | some (.bool fullTransactions) =>
          match s.client.GetBlockByNumber blockNumberParam fullTransactions with
          | (_, some err) =>
            (.nil, some ⟨-32603, err⟩,
              [.getBlockByNumber blockNumberParam fullTransactions])
          | (block, none) =>
            (.block block, none,
              [.getBlockByNumber blockNumberParam fullTransactions])
        | _ => (.nil, some ⟨-32602, "invalid full transactions parameter"⟩, [])
      | _ => (.nil, some ⟨-32602, "invalid block number parameter"⟩, [])
  else
    (.nil, some ⟨-32601, "method not found"⟩, [])

/-- The "Prepare response" part of `HandleJSONRPC`. -/
def prepareResponse (request : RPCRequest) (result : Result)
    (rpcError : Option RPCError) : RPCResponse :=
  let response : RPCResponse := { JSONRPC := "2.0", ID := request.ID, Error := rpcError }
  if !result.isNil && rpcError.isNone then
    match result.marshal with
    | none => { response with Error := some ⟨-32603, "failed to marshal result"⟩ }
    | some resultBytes => { response with Result := some (.json resultBytes) }
  else response

/-- Go `(*Server).HandleJSONRPC`. -/
def HandleJSONRPC (s : Server) (r : Request) : Outcome :=
  if r.Method ≠ "POST" then
    ⟨writeJSONResponse 405 (.error ⟨"method not allowed"⟩), []⟩
  else
    match r.Body with
    | none => ⟨writeJSONResponse 400 (.error ⟨"failed to read request body"⟩), []⟩
    | some body =>
      match unmarshalRPCRequest body with
      | none => ⟨writeJSONResponse 400 (.error ⟨"invalid JSON-RPC request"⟩), []⟩
      | some request =>
        if request.JSONRPC ≠ "2.0" then
          ⟨writeJSONResponse 400 (.rpc
            { JSONRPC := "2.0",
              Error := some ⟨-32600, "invalid JSON-RPC version, expected 2.0"⟩,
              ID := request.ID }), []⟩
        else
          match dispatch s request with
          | (result, rpcError, calls) =>
            ⟨writeJSONResponse 200 (.rpc (prepareResponse request result rpcError)), calls⟩

/-- Go `(*Server).HandleGetBlockByNumber`. -/
def HandleGetBlockByNumber (s : Server) (r : Request) : Outcome :=
  if r.Method ≠ "GET" then
    ⟨writeJSONResponse 405 (.error ⟨"method not allowed"⟩), []⟩
  else
    let blockNumber := queryGet r.Query "number"
    if blockNumber = "" then
      ⟨writeJSONResponse 400 (.error ⟨"block number is required"⟩), []⟩
    else
      let fullTx : Bool := queryGet r.Query "full" = "true"
      match s.client.GetBlockByNumber blockNumber fullTx with
      | (_, some err) =>
        ⟨writeJSONResponse 500 (.error ⟨err⟩), [.getBlockByNumber blockNumber fullTx]⟩
      | (block, none) =>
        ⟨writeJSONResponse 200 (.block ⟨block⟩), [.getBlockByNumber blockNumber fullTx]⟩

/-- Go `(*Server).HandleGetBlockNumber`. -/
def HandleGetBlockNumber (s : Server) (r : Request) : Outcome :=
  if r.Method ≠ "GET" then
    ⟨writeJSONResponse 405 (.error ⟨"method not allowed"⟩), []⟩
  else
    match s.client.GetBlockNumber () with
    | (_, some err) => ⟨writeJSONResponse 500 (.error ⟨err⟩), [.getBlockNumber]⟩
    | (blockNumber, none) =>
      ⟨writeJSONResponse 200 (.blockNumber ⟨blockNumber⟩), [.getBlockNumber]⟩

/-! ## The upstream client (`pkg/blockchain/client.go`)

The `RPCRequest`, `RPCResponse` and `RPCError` types of `client.go` have the
fields and tags of their namesakes in `server.go`; the structures above stand
for both. -/

/-- Input of `json.Unmarshal`: the JSON text in a byte slice, if it is one (a
nil or empty slice is not). -/
def RawMessage.parse : RawMessage → Option JSON
  | some (.json v) => some v
  | _ => none

/-- One member of a JSON object decoded into an `RPCError`. -/
def RPCError.setField (e : RPCError) (kv : String × JSON) : Option RPCError :=
  if keyMatches kv.1 "code" then
    (decodeInt e.Code kv.2).map (fun n => { e with Code := n })
  else if keyMatches kv.1 "message" then
    (decodeString e.Message kv.2).map (fun m => { e with Message := m })
  else some e

/-- Decode a JSON value into a `*RPCError` holding `cur`: `null` sets the nil
pointer, an object is decoded into the struct pointed to (a fresh zero struct
when the pointer is nil), anything else is a type error. -/
def decodeRPCErrorPtr (cur : Option RPCError) : JSON → Option (Option RPCError)
  | .null => some none
  | .obj kvs => (kvs.foldlM RPCError.setField (cur.getD ⟨0, ""⟩)).map some
  | _ => none

/-- One member of a JSON object decoded into an `RPCResponse`; a
`json.RawMessage` field takes any value, `null` included, as it stands. -/
def RPCResponse.setField (r : RPCResponse) (kv : String × JSON) : Option RPCResponse :=
  if keyMatches kv.1 "jsonrpc" then
    (decodeString r.JSONRPC kv.2).map (fun v => { r with JSONRPC := v })
  else if keyMatches kv.1 "result" then
    some { r with Result := some (.json kv.2) }
  else if keyMatches kv.1 "error" then
    (decodeRPCErrorPtr r.Error kv.2).map (fun e => { r with Error := e })
  else if keyMatches kv.1 "id" then
    (decodeInt r.ID kv.2).map (fun n => { r with ID := n })
  else some r

/-- Call `json.Unmarshal(bodyBytes, &rpcResp)` on a zero `RPCResponse`: `none`
when it returns an error. -/
def unmarshalRPCResponse : Bytes → Option RPCResponse
  | .other _ => none
  | .json .null => some {}
  | .json (.obj kvs) => kvs.foldlM RPCResponse.setField {}
  | .json _ => none

/-- One member of a JSON object decoded into a `Block`. -/
def Block.setField (b : Block) (kv : String × JSON) : Option Block :=
  if keyMatches kv.1 "number" then
    (decodeString b.Number kv.2).map (fun v => { b with Number := v })
  else if keyMatches kv.1 "hash" then
    (decodeString b.Hash kv.2).map (fun v => { b with Hash := v })
  else if keyMatches kv.1 "parentHash" then
    (decodeString b.ParentHash kv.2).map (fun v => { b with ParentHash := v })
  else if keyMatches kv.1 "nonce" then
    (decodeString b.Nonce kv.2).map (fun v => { b with Nonce := v })
  else if keyMatches kv.1 "timestamp" then
    (decodeString b.Timestamp kv.2).map (fun v => { b with Timestamp := v })
  else if keyMatches kv.1 "transactions" then
    some { b with Transactions := some (.json kv.2) }
  else if keyMatches kv.1 "transactionCount" then
    (decodeInt b.TransactionCount kv.2).map (fun n => { b with TransactionCount := n })
  else some b

/-- Decode a JSON value into a `Block` holding `cur`: `null` leaves it
unchanged, an object sets the fields its members select, anything else is a
type error. -/
def decodeBlock (cur : Block) : JSON → Option Block
  | .null => some cur
  | .obj kvs => kvs.foldlM Block.setField cur
  | _ => none

/-- Call `json.Unmarshal(raw, &block)` on a zero `Block`. -/
def unmarshalBlock (raw : RawMessage) : Option Block :=
  raw.parse.bind (decodeBlock {})

/-- Call `json.Unmarshal(raw, &blockNumber)` on an empty `string`. -/
def unmarshalString (raw : RawMessage) : Option String :=
  raw.parse.bind (decodeString "")

/-- Call `json.Unmarshal(raw, &txArray)` on a nil `[]interface{}`. -/
def unmarshalAnySlice (raw : RawMessage) : Option (List JSON) :=
  raw.parse.bind decodeAnySlice

/-- Decode the elements of a JSON array into the elements of a `[]string`,
each starting empty. -/
def decodeStrings : List JSON → Option (List String)
  | [] => some []
  | x :: xs =>
    match decodeString "" x, decodeStrings xs with
    | some v, some vs => some (v :: vs)
    | _, _ => none

/-- Decode a JSON value into a Go `[]string`: `null` gives the nil slice, an
array is decoded element by element, anything else is a type error. -/
def decodeStringSlice : JSON → Option (List String)
  | .null => some []
  | .arr xs => decodeStrings xs
  | _ => none

/-- Call `json.Unmarshal(raw, &txArray)` on a nil `[]string`. -/
def unmarshalStringSlice (raw : RawMessage) : Option (List String) :=
  raw.parse.bind decodeStringSlice

/-- Decode a JSON value into a `*Block` holding `cur`. -/
def decodeBlockPtr (cur : Option Block) : JSON → Option (Option Block)
  | .null => some none
  | .obj kvs => (kvs.foldlM Block.setField (cur.getD {})).map some
  | _ => none

/-- One member of a JSON object decoded into a `BlockResponse`. -/
def BlockResponse.setField (r : BlockResponse) (kv : String × JSON) :
    Option BlockResponse :=
  if keyMatches kv.1 "block" then
    (decodeBlockPtr r.Block kv.2).map (fun b => { r with Block := b })
  else some r

/-- Call `json.Unmarshal(data, &resp)` on a zero `BlockResponse`. -/
def unmarshalBlockResponse : Bytes → Option BlockResponse
  | .other _ => none
  | .json .null => some ⟨none⟩
  | .json (.obj kvs) => kvs.foldlM BlockResponse.setField ⟨none⟩
  | .json _ => none

/-- Call `json.Marshal` on an `RPCRequest`: `params` carries `omitempty`. -/
def RPCRequest.marshal (r : RPCRequest) : JSON :=
  .obj ([("jsonrpc", .str r.JSONRPC), ("method", .str r.Method)] ++
    (if r.Params.isEmpty then [] else [("params", .arr r.Params)]) ++
    [("id", .int r.ID)])

/-- What `httpClient.Post` and the reading of the body give: the request
could not be sent; a status came back and the body was read; or a status came
back and reading the body failed. -/
inductive Reply where
  | failed (cause : String)
  | answered (status : Int) (body : Bytes)
  | truncated (status : Int) (cause : String)

/-- Field `StatusCode` of the reply, when there is a reply. -/
def Reply.StatusCode : Reply → Option Int
  | .failed _ => none
  | .answered status _ => some status
  | .truncated status _ => some status

/-- Go `Client`.  `httpPost url body` is the reply of the endpoint to the
request body posted to it.  `jsonErrorText target` is the text of the error
`json.Unmarshal` reports when it rejects an input for a target of the named
type; it is computed by `encoding/json`, not by this program. -/
structure Client where
  rpcURL : String
  httpPost : String → JSON → Reply
  jsonErrorText : String → Option Bytes → String

/-- Go `(*Client).call`.  Encoding the request cannot fail: its params are
JSON values. -/
def Client.call (c : Client) (method : String) (params : List JSON) :
    Except String RPCResponse :=
  let request : RPCRequest := { JSONRPC := "2.0", Method := method, Params := params, ID := 2 }
  match c.httpPost c.rpcURL request.marshal with
  | .failed cause => .error ("failed to send request: " ++ cause)
  | .truncated status cause =>
    if status ≠ 200 then .error ("unexpected status code: " ++ toString status)
    else .error ("failed to read response body: " ++ cause)
  | .answered status bodyBytes =>
    if status ≠ 200 then .error ("unexpected status code: " ++ toString status)
    else
      match unmarshalRPCResponse bodyBytes with
      | none =>
        .error ("failed to unmarshal response: " ++
          c.jsonErrorText "RPCResponse" (some bodyBytes))
      | some rpcResp =>
        match rpcResp.Error with
        | some e =>
          .error ("RPC error: " ++ e.Message ++ " (code: " ++ toString e.Code ++ ")")
        | none => .ok rpcResp

/-- Go `(*Client).GetBlockNumber`. -/
def Client.GetBlockNumber (c : Client) : String × Option String :=
  match c.call "eth_blockNumber" [] with
  | .error err => ("", some err)
  | .ok resp =>
    match unmarshalString resp.Result with
    | none =>
      ("", some ("failed to unmarshal block number: " ++
        c.jsonErrorText "string" resp.Result))
    | some blockNumber => (blockNumber, none)

/-- The transaction count computed by `GetBlockByNumber`: the length of the
transactions payload decoded in the requested mode, zero when it does not
decode. -/
def txCount (transactions : RawMessage) (fullTransactions : Bool) : Int :=
  if fullTransactions then
    match unmarshalAnySlice transactions with
    | some txArray => txArray.length
    | none => 0
  else
    match unmarshalStringSlice transactions with
    | some txArray => txArray.length
    | none => 0

/-- Go `(*Client).GetBlockByNumber`. -/
def Client.GetBlockByNumber (c : Client) (blockNumber : String)
    (fullTransactions : Bool) : Option Block × Option String :=
  match c.call "eth_getBlockByNumber" [.str blockNumber, .bool fullTransactions] with
  | .error err => (none, some err)
  | .ok resp =>
    match unmarshalBlock resp.Result with
    | none =>
      (none, some ("failed to unmarshal block: " ++ c.jsonErrorText "Block" resp.Result))
    | some block =>
      (some { block with TransactionCount := txCount block.Transactions fullTransactions },
        none)

/-- Go `CreateMockBlock`. -/
def CreateMockBlock (number hash parentHash nonce timestamp : String) (txCount : Int)
    (txData : RawMessage) : Block :=
  { Number := number, Hash := hash, ParentHash := parentHash, Nonce := nonce,
    Timestamp := timestamp, Transactions := txData, TransactionCount := txCount }

/-! ## Shapes of response bodies -/

/-- Body of a JSON-RPC error envelope. -/
def errorEnvelope (id : Int) (code : Int) (message : String) : JSON :=
  .obj [("jsonrpc", .str "2.0"),
    ("error", .obj [("code", .int code), ("message", .str message)]),
    ("id", .int id)]

/-- Body of a JSON-RPC success envelope. -/
def resultEnvelope (id : Int) (result : JSON) : JSON :=
  .obj [("jsonrpc", .str "2.0"), ("result", result), ("id", .int id)]

/-- Body of a REST error response. -/
def errorBody (message : String) : JSON :=
  .obj [("error", .str message)]

/-- A JSON-RPC envelope: an object with `jsonrpc` and `id` members and a
`result` or an `error` member. -/
def isEnvelope (j : JSON) : Bool :=
  j.hasKey "jsonrpc" && j.hasKey "id" && (j.hasKey "result" || j.hasKey "error")

/-- Error codes carried by the `error` members of a response body. -/
def errorCodes (j : JSON) : List JSON :=
  (j.members "error").flatMap (fun e => e.members "code")

/-- A client that answers every call with fixed values. -/
def constClient (bn : String × Option String) (blk : Option Block × Option String) :
    BlockchainClient :=
  { GetBlockNumber := fun _ => bn, GetBlockByNumber := fun _ _ => blk }

/-! ## Sample inputs -/

/-- Server whose client answers every call with fixed values. -/
def constServer (bn : String × Option String) (blk : Option Block × Option String) :
    Server :=
  ⟨constClient bn blk⟩

/-- A block as a node returns it, with two transaction hashes. -/
def sampleBlock : Block :=
  { Number := "0x1234567", Hash := "0xabcdef1234567890",
    ParentHash := "0x1234567890abcdef", Nonce := "0x123456",
    Timestamp := "0x60123456",
    Transactions := some (.json (.arr [.str "0xtx1", .str "0xtx2"])),
    TransactionCount := 2 }

/-- A block whose transactions payload is not a JSON text. -/
def brokenBlock : Block :=
  { sampleBlock with Transactions := some (.other "\x7b") }

/-- Server whose client returns `"0x1234567"` and `sampleBlock`. -/
def okServer : Server := constServer ("0x1234567", none) (some sampleBlock, none)

/-- Server whose client returns `brokenBlock`. -/
def brokenServer : Server := constServer ("0x1234567", none) (some brokenBlock, none)

/-- Server whose client fails every call with "upstream down". -/
def failingServer : Server :=
  constServer ("", some "upstream down") (none, some "upstream down")

/-- Server whose client returns a nil block without error. -/
def nilServer : Server := constServer ("", none) (none, none)

/-- A POST carrying the given JSON text. -/
def post (j : JSON) : Request := { Method := "POST", Body := some (.json j) }

/-- A GET with the given query. -/
def get (q : List (String × String)) : Request := { Method := "GET", Query := q }

/-- The JSON-RPC request text for a method, parameters and id. -/
def rpcText (version method : String) (params : List JSON) (id : Int) : JSON :=
  .obj [("jsonrpc", .str version), ("method", .str method), ("params", .arr params),
    ("id", .int id)]

/-- Request body posted by `GetBlockNumber`. -/
def blockNumberRequest : JSON :=
  RPCRequest.marshal { JSONRPC := "2.0", Method := "eth_blockNumber", Params := [], ID := 2 }

/-- Request body posted by `GetBlockByNumber`. -/
def blockByNumberRequest (blockNumber : String) (fullTransactions : Bool) : JSON :=
  RPCRequest.marshal
    { JSONRPC := "2.0", Method := "eth_getBlockByNumber",
      Params := [.str blockNumber, .bool fullTransactions], ID := 2 }

/-- Range of a Go `int` on a 64-bit platform. -/
def isGoInt (n : Int) : Prop := -(2 : Int) ^ 63 ≤ n ∧ n < (2 : Int) ^ 63

/-- A client whose endpoint answers every request with the same reply. -/
def stubClient (reply : Reply) : Client :=
  { rpcURL := "http://node.test/", httpPost := fun _ _ => reply,
    jsonErrorText := fun _ _ => "invalid input" }

/-- A reply with status 200 carrying a result envelope. -/
def resultReply (result : JSON) : Reply :=
  .answered 200 (.json (resultEnvelope 2 result))

/-- An upstream block with the given transactions and its own
`transactionCount` member of value 99. -/
def upstreamBlock (transactions : JSON) : JSON :=
  .obj [("number", .str "0x1234567"), ("hash", .str "0xabcdef1234567890"),
    ("parentHash", .str "0x1234567890abcdef"), ("nonce", .str "0x123456"),
    ("timestamp", .str "0x60123456"), ("transactions", transactions),
    ("transactionCount", .int 99)]

/-- The block decoded from `upstreamBlock`. -/
def decodedBlock (transactions : JSON) : Block :=
  { Number := "0x1234567", Hash := "0xabcdef1234567890",
    ParentHash := "0x1234567890abcdef", Nonce := "0x123456",
    Timestamp := "0x60123456", Transactions := some (.json transactions),
    TransactionCount := 99 }

/-- An envelope that carries both a result and an error. -/
def resultAndErrorEnvelope : JSON :=
  .obj [("jsonrpc", .str "2.0"), ("result", .str "0x1234567"),
    ("error", .obj [("code", .int (-32000)), ("message", .str "Invalid block number")]),
    ("id", .int 2)]

/-- Two transaction objects. -/
def twoTxObjects : JSON :=
  .arr [.obj [("hash", .str "0xtx1"), ("from", .str "0xaddr1")],
    .obj [("hash", .str "0xtx2"), ("from", .str "0xaddr3")]]

/-! ## Lemmas on the handler of JSON-RPC requests -/

/-- Handler `HandleJSONRPC` on a well-formed request of version "2.0". -/
theorem handleJSONRPC_v2 (s : Server) (r : Request) (body : Bytes) (request : RPCRequest)
    (hm : r.Method = "POST") (hb : r.Body = some body)
    (hp : unmarshalRPCRequest body = some request) (hv : request.JSONRPC = "2.0") :
    HandleJSONRPC s r =
      ⟨⟨200, (prepareResponse request (dispatch s request).1
          (dispatch s request).2.1).marshal⟩, (dispatch s request).2.2⟩ := by
  simp [HandleJSONRPC, hm, hb, hp, hv, writeJSONResponse, ResponseData.marshal]

/-- Encoding of a response that carries an error and no result. -/
theorem marshal_error_response (id : Int) (code : Int) (msg : String) :
    RPCResponse.marshal { JSONRPC := "2.0", ID := id, Error := some ⟨code, msg⟩ } =
      some (errorEnvelope id code msg) := by
  simp [RPCResponse.marshal, RawMessage.isEmpty, RPCError.marshal, errorEnvelope]

/-- Encoding of a response that carries a result and no error. -/
theorem marshal_result_response (id : Int) (v : JSON) :
    RPCResponse.marshal { JSONRPC := "2.0", ID := id, Result := some (.json v) } =
      some (resultEnvelope id v) := by
  simp [RPCResponse.marshal, RawMessage.isEmpty, RawMessage.marshal, resultEnvelope]

/-- The prepared response when the dispatch left an error. -/
theorem prepare_error (request : RPCRequest) (res : Result) (e : RPCError) :
    (prepareResponse request res (some e)).marshal =
      some (errorEnvelope request.ID e.Code e.Message) := by
  obtain ⟨code, msg⟩ := e
  simp [prepareResponse, marshal_error_response]

/-- The prepared response when the dispatch left a result that encodes. -/
theorem prepare_result (request : RPCRequest) (res : Result) (v : JSON)
    (hn : res.isNil = false) (hv : res.marshal = some v) :
    (prepareResponse request res none).marshal = some (resultEnvelope request.ID v) := by
  simp [prepareResponse, hn, hv, marshal_result_response]

/-- The prepared response when the dispatch left a result that does not
encode. -/
theorem prepare_unencodable (request : RPCRequest) (res : Result)
    (hn : res.isNil = false) (hv : res.marshal = none) :
    (prepareResponse request res none).marshal =
      some (errorEnvelope request.ID (-32603) "failed to marshal result") := by
  simp [prepareResponse, hn, hv, marshal_error_response]

/-- Dispatch of `eth_blockNumber`. -/
theorem dispatch_blockNumber (s : Server) (request : RPCRequest)
    (hmeth : request.Method = "eth_blockNumber") :
    dispatch s request =
      match s.client.GetBlockNumber () with
      | (_, some err) => (.nil, some ⟨-32603, err⟩, [.getBlockNumber])
      | (blockNumber, none) => (.string blockNumber, none, [.getBlockNumber]) := by
  unfold dispatch
  rw [if_pos hmeth]

/-- Dispatch of `eth_getBlockByNumber` with fewer than two params. -/
theorem dispatch_too_few (s : Server) (request : RPCRequest)
    (hmeth : request.Method = "eth_getBlockByNumber") (hlen : request.Params.length < 2) :
    dispatch s request =
      (.nil, some ⟨-32602, "invalid params for eth_getBlockByNumber"⟩, []) := by
  unfold dispatch
  rw [if_neg (by rw [hmeth]; decide), if_pos hmeth, if_pos hlen]

/-- Dispatch of `eth_getBlockByNumber` whose first param is not a string. -/
theorem dispatch_bad_number (s : Server) (request : RPCRequest) (p0 p1 : JSON)
    (rest : List JSON) (hmeth : request.Method = "eth_getBlockByNumber")
    (hps : request.Params = p0 :: p1 :: rest) (hp0 : ∀ n, p0 ≠ .str n) :
    dispatch s request = (.nil, some ⟨-32602, "invalid block number parameter"⟩, []) := by
  unfold dispatch
  rw [if_neg (by rw [hmeth]; decide), if_pos hmeth,
    if_neg (by rw [hps]; simp only [List.length_cons]; omega), hps]
  cases p0 <;> first | exact absurd rfl (hp0 _) | rfl

/-- Dispatch of `eth_getBlockByNumber` whose first param is a string and
whose second param is not a boolean. -/
theorem dispatch_bad_full (s : Server) (request : RPCRequest) (n : String) (p1 : JSON)
    (rest : List JSON) (hmeth : request.Method = "eth_getBlockByNumber")
    (hps : request.Params = .str n :: p1 :: rest) (hp1 : ∀ f, p1 ≠ .bool f) :
    dispatch s request =
      (.nil, some ⟨-32602, "invalid full transactions parameter"⟩, []) := by
  unfold dispatch
  rw [if_neg (by rw [hmeth]; decide), if_pos hmeth,
    if_neg (by rw [hps]; simp only [List.length_cons]; omega), hps]
  cases p1 <;> first | exact absurd rfl (hp1 _) | rfl

/-- Dispatch of `eth_getBlockByNumber` with well-typed params. -/
theorem dispatch_getBlock (s : Server) (request : RPCRequest) (n : String) (f : Bool)
    (rest : List JSON) (hmeth : request.Method = "eth_getBlockByNumber")
    (hps : request.Params = .str n :: .bool f :: rest) :
    dispatch s request =
      match s.client.GetBlockByNumber n f with
      | (_, some err) => (.nil, some ⟨-32603, err⟩, [.getBlockByNumber n f])
      | (block, none) => (.block block, none, [.getBlockByNumber n f]) := by
  unfold dispatch
  rw [if_neg (by rw [hmeth]; decide), if_pos hmeth,
    if_neg (by rw [hps]; simp only [List.length_cons]; omega), hps]
  rfl

/-- Dispatch of any other method. -/
theorem dispatch_unknown (s : Server) (request : RPCRequest)
    (h1 : request.Method ≠ "eth_blockNumber")
    (h2 : request.Method ≠ "eth_getBlockByNumber") :
    dispatch s request = (.nil, some ⟨-32601, "method not found"⟩, []) := by
  unfold dispatch
  rw [if_neg h1, if_neg h2]

/-- After the dispatch, an error is set or the result is a non-nil interface
value. -/
theorem dispatch_error_or_result (s : Server) (request : RPCRequest) :
    (∃ e, (dispatch s request).2.1 = some e) ∨
    ((dispatch s request).2.1 = none ∧ (dispatch s request).1.isNil = false) := by
  unfold dispatch
  split
  · split <;> simp [Result.isNil]
  · split
    · split
      · simp
      · split
        · split
          · split <;> simp [Result.isNil]
          · simp
        · simp
    · simp

/-- Every version "2.0" request is answered by an error envelope or a result
envelope carrying the request's id. -/
theorem prepared_shape (s : Server) (request : RPCRequest) :
    (∃ c m, (prepareResponse request (dispatch s request).1
        (dispatch s request).2.1).marshal = some (errorEnvelope request.ID c m)) ∨
    (∃ v, (prepareResponse request (dispatch s request).1
        (dispatch s request).2.1).marshal = some (resultEnvelope request.ID v)) := by
  rcases dispatch_error_or_result s request with ⟨e, he⟩ | ⟨he, hn⟩
  · left
    exact ⟨e.Code, e.Message, by rw [he]; exact prepare_error _ _ _⟩
  · rw [he]
    cases hv : (dispatch s request).1.marshal with
    | none => left; exact ⟨_, _, prepare_unencodable _ _ hn hv⟩
    | some v => right; exact ⟨v, prepare_result _ _ v hn hv⟩

/-- The three ways `HandleJSONRPC` answers: a plain error body; the version
error written with status 400; or, for a version "2.0" request, an error or
result envelope written with status 200. -/
theorem handleJSONRPC_cases (s : Server) (r : Request) :
    (∃ st m, (HandleJSONRPC s r).response = ⟨st, some (errorBody m)⟩) ∨
    (∃ body request, r.Method = "POST" ∧ r.Body = some body ∧
      unmarshalRPCRequest body = some request ∧ request.JSONRPC ≠ "2.0" ∧
      (HandleJSONRPC s r).response =
        ⟨400, some (errorEnvelope request.ID (-32600)
          "invalid JSON-RPC version, expected 2.0")⟩) ∨
    (∃ body request, r.Method = "POST" ∧ r.Body = some body ∧
      unmarshalRPCRequest body = some request ∧ request.JSONRPC = "2.0" ∧
      ((∃ c m, (HandleJSONRPC s r).response =
          ⟨200, some (errorEnvelope request.ID c m)⟩) ∨
       (∃ v, (HandleJSONRPC s r).response =
          ⟨200, some (resultEnvelope request.ID v)⟩))) := by
  by_cases hm : r.Method = "POST"
  · cases hb : r.Body with
    | none =>
      left
      exact ⟨400, "failed to read request body", by
        simp [HandleJSONRPC, hm, hb, writeJSONResponse, ResponseData.marshal, errorBody]⟩
    | some body =>
      cases hp : unmarshalRPCRequest body with
      | none =>
        left
        exact ⟨400, "invalid JSON-RPC request", by
          simp [HandleJSONRPC, hm, hb, hp, writeJSONResponse, ResponseData.marshal,
            errorBody]⟩
      | some request =>
        by_cases hv : request.JSONRPC = "2.0"
        · right; right
          refine ⟨body, request, hm, rfl, hp, hv, ?_⟩
          rw [handleJSONRPC_v2 s r body request hm hb hp hv]
          rcases prepared_shape s request with ⟨c, m, h⟩ | ⟨v, h⟩
          · left; exact ⟨c, m, by rw [h]⟩
          · right; exact ⟨v, by rw [h]⟩
        · right; left
          refine ⟨body, request, hm, rfl, hp, hv, ?_⟩
          simp [HandleJSONRPC, hm, hb, hp, hv, writeJSONResponse, ResponseData.marshal,
            marshal_error_response]
  · left
    exact ⟨405, "method not allowed", by
      simp [HandleJSONRPC, hm, writeJSONResponse, ResponseData.marshal, errorBody]⟩

/-- Method `url.Values.Get` returns the first value when there is one. -/
theorem queryGet_of_head (q : List (String × String)) (key v : String)
    (h : (queryValues q key).head? = some v) : queryGet q key = v := by
  unfold queryGet
  cases hq : queryValues q key with
  | nil => rw [hq] at h; cases h
  | cons a t => rw [hq] at h; simpa using h

/-- Method `url.Values.Get` returns a non-empty string exactly when it is the
first value. -/
theorem queryGet_eq_iff (q : List (String × String)) (key v : String) (hv : v ≠ "") :
    queryGet q key = v ↔ (queryValues q key).head? = some v := by
  unfold queryGet
  cases hq : queryValues q key with
  | nil => simpa using fun h => hv h.symm
  | cons a t => simp

/-! ## Theorems -/

/-- C1: a POST whose body decodes as a request envelope with a `jsonrpc` field
other than "2.0" is answered with status 400 and the error envelope
(-32600, "invalid JSON-RPC version, expected 2.0") carrying the request's id
and no result, without any call on the client. -/
theorem version_mismatch_rejected (s : Server) (r : Request) (body : Bytes)
    (request : RPCRequest) (hm : r.Method = "POST") (hb : r.Body = some body)
    (hp : unmarshalRPCRequest body = some request) (hv : request.JSONRPC ≠ "2.0") :
    HandleJSONRPC s r =
      ⟨⟨400, some (errorEnvelope request.ID (-32600)
        "invalid JSON-RPC version, expected 2.0")⟩, []⟩ ∧
    (errorEnvelope request.ID (-32600)
        "invalid JSON-RPC version, expected 2.0").hasKey "result" = false := by
  constructor
  · simp [HandleJSONRPC, hm, hb, hp, hv, writeJSONResponse, ResponseData.marshal,
      marshal_error_response]
  · simp [errorEnvelope, JSON.hasKey, JSON.members]

/-- Witness of C1: a request without `jsonrpc` member (method
`eth_blockNumber`, id 7) is rejected with status 400 and code -32600. -/
theorem version_mismatch_rejected_witness :
    HandleJSONRPC okServer
        (post (.obj [("method", .str "eth_blockNumber"), ("id", .int 7)])) =
      ⟨⟨400, some (errorEnvelope 7 (-32600)
        "invalid JSON-RPC version, expected 2.0")⟩, []⟩ ∧
    (errorEnvelope 7 (-32600)
        "invalid JSON-RPC version, expected 2.0").hasKey "result" = false :=
  version_mismatch_rejected okServer
    (post (.obj [("method", .str "eth_blockNumber"), ("id", .int 7)]))
    (.json (.obj [("method", .str "eth_blockNumber"), ("id", .int 7)]))
    { Method := "eth_blockNumber", ID := 7 } rfl rfl rfl (by decide)

/-- C2: a version "2.0" request for `eth_blockNumber`, whatever its params,
is answered with status 200 and the result envelope carrying the request's
id and the JSON string returned by the client, with no error member; a
request that differs only in its params gets the same response. -/
theorem eth_blockNumber_success (s : Server) (r : Request) (body : Bytes)
    (request : RPCRequest) (blockNumber : String)
    (hm : r.Method = "POST") (hb : r.Body = some body)
    (hp : unmarshalRPCRequest body = some request) (hv : request.JSONRPC = "2.0")
    (hmeth : request.Method = "eth_blockNumber")
    (hc : s.client.GetBlockNumber () = (blockNumber, none)) :
    (HandleJSONRPC s r).response =
      ⟨200, some (resultEnvelope request.ID (.str blockNumber))⟩ ∧
    (resultEnvelope request.ID (.str blockNumber)).hasKey "error" = false ∧
    ∀ (r2 : Request) (body2 : Bytes) (params : List JSON),
      r2.Method = "POST" → r2.Body = some body2 →
      unmarshalRPCRequest body2 = some { request with Params := params } →
      HandleJSONRPC s r2 = HandleJSONRPC s r := by
  have key : ∀ (r1 : Request) (b1 : Bytes) (ps : List JSON), r1.Method = "POST" →
      r1.Body = some b1 → unmarshalRPCRequest b1 = some { request with Params := ps } →
      HandleJSONRPC s r1 =
        ⟨⟨200, some (resultEnvelope request.ID (.str blockNumber))⟩, [.getBlockNumber]⟩ := by
    intro r1 b1 ps h1 h2 h3
    rw [handleJSONRPC_v2 s r1 b1 _ h1 h2 h3 hv,
      dispatch_blockNumber s { request with Params := ps } hmeth, hc]
    exact congrArg (fun b => (⟨⟨200, b⟩, [.getBlockNumber]⟩ : Outcome))
      (prepare_result _ _ _ rfl rfl)
  refine ⟨?_, ?_, ?_⟩
  · rw [key r body request.Params hm hb hp]
  · simp [resultEnvelope, JSON.hasKey, JSON.members]
  · intro r2 body2 params h1 h2 h3
    rw [key r2 body2 params h1 h2 h3, key r body request.Params hm hb hp]

/-- Witness of C2: the scenario of the test suite, with params present. -/
theorem eth_blockNumber_success_witness :
    (HandleJSONRPC okServer
        (post (rpcText "2.0" "eth_blockNumber" [.int 1] 2))).response =
      ⟨200, some (resultEnvelope 2 (.str "0x1234567"))⟩ :=
  (eth_blockNumber_success okServer (post (rpcText "2.0" "eth_blockNumber" [.int 1] 2))
    (.json (rpcText "2.0" "eth_blockNumber" [.int 1] 2))
    { JSONRPC := "2.0", Method := "eth_blockNumber", Params := [.int 1], ID := 2 }
    "0x1234567" rfl rfl rfl rfl rfl rfl).1

/-- Counterexample to C3: the client returns, without error, a block whose
transactions payload is not a JSON text; the handler calls it once with
("0x1234567", true) and answers with the error envelope (-32603, "failed to
marshal result"), which has an error member and no result member. -/
theorem getBlock_unencodable_counterexample :
    brokenServer.client.GetBlockByNumber "0x1234567" true = (some brokenBlock, none) ∧
    HandleJSONRPC brokenServer
        (post (rpcText "2.0" "eth_getBlockByNumber" [.str "0x1234567", .bool true] 2)) =
      ⟨⟨200, some (errorEnvelope 2 (-32603) "failed to marshal result")⟩,
        [.getBlockByNumber "0x1234567" true]⟩ ∧
    (errorEnvelope 2 (-32603) "failed to marshal result").hasKey "error" = true ∧
    (errorEnvelope 2 (-32603) "failed to marshal result").hasKey "result" = false :=
  ⟨rfl, rfl, rfl, rfl⟩

/-- C3 (amended): a version "2.0" request for `eth_getBlockByNumber` whose
params start with a string n and a boolean f makes exactly one client call,
`GetBlockByNumber(n, f)`, whatever the further params are; if the call returns
a block b without error and the transactions payload of b encodes (it is nil
or a JSON text), the response has status 200 and is the result envelope with
the request's id, no error member, and as result the object with members
number, hash, parentHash, nonce, timestamp, transactions, transactionCount of
b; if the payload does not encode, the response is the error envelope
(-32603, "failed to marshal result"). -/
theorem eth_getBlockByNumber_success (s : Server) (r : Request) (body : Bytes)
    (request : RPCRequest) (n : String) (f : Bool) (rest : List JSON)
    (hm : r.Method = "POST") (hb : r.Body = some body)
    (hp : unmarshalRPCRequest body = some request) (hv : request.JSONRPC = "2.0")
    (hmeth : request.Method = "eth_getBlockByNumber")
    (hparams : request.Params = .str n :: .bool f :: rest) :
    (HandleJSONRPC s r).calls = [.getBlockByNumber n f] ∧
    (∀ (b : Block) (txs : JSON), s.client.GetBlockByNumber n f = (some b, none) →
      RawMessage.marshal b.Transactions = some txs →
      (HandleJSONRPC s r).response =
        ⟨200, some (resultEnvelope request.ID
          (.obj [("number", .str b.Number), ("hash", .str b.Hash),
            ("parentHash", .str b.ParentHash), ("nonce", .str b.Nonce),
            ("timestamp", .str b.Timestamp), ("transactions", txs),
            ("transactionCount", .int b.TransactionCount)]))⟩ ∧
      ∀ v, (resultEnvelope request.ID v).hasKey "error" = false) ∧
    (∀ (b : Block), s.client.GetBlockByNumber n f = (some b, none) →
      RawMessage.marshal b.Transactions = none →
      (HandleJSONRPC s r).response =
        ⟨200, some (errorEnvelope request.ID (-32603) "failed to marshal result")⟩) := by
  rw [handleJSONRPC_v2 s r body request hm hb hp hv,
    dispatch_getBlock s request n f rest hmeth hparams]
  refine ⟨?_, ?_, ?_⟩
  · rcases s.client.GetBlockByNumber n f with ⟨p, _ | e⟩ <;> rfl
  · intro b txs hc htx
    refine ⟨?_, fun v => by simp [resultEnvelope, JSON.hasKey, JSON.members]⟩
    rw [hc]
    exact congrArg (fun b => (⟨200, b⟩ : Response))
      (prepare_result _ _ _ rfl (by simp [Result.marshal, marshalBlockPtr, Block.marshal, htx]))
  · intro b hc htx
    rw [hc]
    exact congrArg (fun b => (⟨200, b⟩ : Response))
      (prepare_unencodable _ _ rfl
        (by simp [Result.marshal, marshalBlockPtr, Block.marshal, htx]))

/-- Witness of C3 (amended): the scenario of the test suite with a third,
ignored parameter. -/
theorem eth_getBlockByNumber_success_witness :
    (HandleJSONRPC okServer (post (rpcText "2.0" "eth_getBlockByNumber"
        [.str "0x1234567", .bool true, .null] 2))).calls =
      [.getBlockByNumber "0x1234567" true] ∧
    (HandleJSONRPC okServer (post (rpcText "2.0" "eth_getBlockByNumber"
        [.str "0x1234567", .bool true, .null] 2))).response =
      ⟨200, some (resultEnvelope 2
        (.obj [("number", .str "0x1234567"), ("hash", .str "0xabcdef1234567890"),
          ("parentHash", .str "0x1234567890abcdef"), ("nonce", .str "0x123456"),
          ("timestamp", .str "0x60123456"),
          ("transactions", .arr [.str "0xtx1", .str "0xtx2"]),
          ("transactionCount", .int 2)]))⟩ :=
  have h := eth_getBlockByNumber_success okServer
    (post (rpcText "2.0" "eth_getBlockByNumber" [.str "0x1234567", .bool true, .null] 2))
    (.json (rpcText "2.0" "eth_getBlockByNumber" [.str "0x1234567", .bool true, .null] 2))
    { JSONRPC := "2.0", Method := "eth_getBlockByNumber",
      Params := [.str "0x1234567", .bool true, .null], ID := 2 }
    "0x1234567" true [.null] rfl rfl rfl rfl rfl rfl
  ⟨h.1, (h.2.1 sampleBlock (.arr [.str "0xtx1", .str "0xtx2"]) rfl rfl).1⟩

/-- C4: for a version "2.0" request for `eth_getBlockByNumber` the parameter
checks run in the order: at least two params, first param a string, second
param a boolean.  The first failing check gives status 200 and the error
envelope with the request's id and code -32602, with message "invalid params
for eth_getBlockByNumber", "invalid block number parameter" or "invalid full
transactions parameter" respectively, and no client call; when no check fails
no error member of the response carries the code -32602. -/
theorem eth_getBlockByNumber_param_checks (s : Server) (r : Request) (body : Bytes)
    (request : RPCRequest)
    (hm : r.Method = "POST") (hb : r.Body = some body)
    (hp : unmarshalRPCRequest body = some request) (hv : request.JSONRPC = "2.0")
    (hmeth : request.Method = "eth_getBlockByNumber") :
    (request.Params.length < 2 →
      HandleJSONRPC s r =
        ⟨⟨200, some (errorEnvelope request.ID (-32602)
          "invalid params for eth_getBlockByNumber")⟩, []⟩) ∧
    (∀ p0 p1 rest, request.Params = p0 :: p1 :: rest → (∀ n, p0 ≠ .str n) →
      HandleJSONRPC s r =
        ⟨⟨200, some (errorEnvelope request.ID (-32602)
          "invalid block number parameter")⟩, []⟩) ∧
    (∀ n p1 rest, request.Params = .str n :: p1 :: rest → (∀ f, p1 ≠ .bool f) →
      HandleJSONRPC s r =
        ⟨⟨200, some (errorEnvelope request.ID (-32602)
          "invalid full transactions parameter")⟩, []⟩) ∧
    (∀ n f rest, request.Params = .str n :: .bool f :: rest →
      ∀ j, (HandleJSONRPC s r).response.body = some j →
        JSON.int (-32602) ∉ errorCodes j) ∧
    (∀ id m, (errorEnvelope id (-32602) m).hasKey "result" = false) := by
  rw [handleJSONRPC_v2 s r body request hm hb hp hv]
  refine ⟨?_, ?_, ?_, ?_, ?_⟩
  · intro hlen
    rw [dispatch_too_few s request hmeth hlen]
    exact congrArg (fun b => (⟨⟨200, b⟩, []⟩ : Outcome)) (prepare_error _ _ _)
  · intro p0 p1 rest hps hp0
    rw [dispatch_bad_number s request p0 p1 rest hmeth hps hp0]
    exact congrArg (fun b => (⟨⟨200, b⟩, []⟩ : Outcome)) (prepare_error _ _ _)
  · intro n p1 rest hps hp1
    rw [dispatch_bad_full s request n p1 rest hmeth hps hp1]
    exact congrArg (fun b => (⟨⟨200, b⟩, []⟩ : Outcome)) (prepare_error _ _ _)
  · intro n f rest hps j hj
    rw [dispatch_getBlock s request n f rest hmeth hps] at hj
    rcases hc : s.client.GetBlockByNumber n f with ⟨p, _ | e⟩
    · rw [hc] at hj
      cases hmar : marshalBlockPtr p with
      | none =>
        have h := prepare_unencodable request (.block p) rfl hmar
        simp only [h, Option.some.injEq] at hj
        subst hj
        simp [errorCodes, errorEnvelope, JSON.members]
      | some v =>
        have h := prepare_result request (.block p) v rfl hmar
        simp only [h, Option.some.injEq] at hj
        subst hj
        simp [errorCodes, resultEnvelope, JSON.members]
    · rw [hc] at hj
      have h := prepare_error request .nil ⟨-32603, e⟩
      simp only [h, Option.some.injEq] at hj
      subst hj
      simp [errorCodes, errorEnvelope, JSON.members]
  · intro id m
    simp [errorEnvelope, JSON.hasKey, JSON.members]
/-- Witness of C4: one param only gives "invalid params for
eth_getBlockByNumber"; params (1, "x"), which fail both type checks, give the
message of the first one. -/
theorem eth_getBlockByNumber_param_checks_witness :
    HandleJSONRPC okServer
        (post (rpcText "2.0" "eth_getBlockByNumber" [.str "0x1"] 5)) =
      ⟨⟨200, some (errorEnvelope 5 (-32602)
        "invalid params for eth_getBlockByNumber")⟩, []⟩ ∧
    HandleJSONRPC okServer
        (post (rpcText "2.0" "eth_getBlockByNumber" [.int 1, .str "x"] 5)) =
      ⟨⟨200, some (errorEnvelope 5 (-32602) "invalid block number parameter")⟩, []⟩ :=
  ⟨(eth_getBlockByNumber_param_checks okServer
      (post (rpcText "2.0" "eth_getBlockByNumber" [.str "0x1"] 5))
      (.json (rpcText "2.0" "eth_getBlockByNumber" [.str "0x1"] 5))
      { JSONRPC := "2.0", Method := "eth_getBlockByNumber", Params := [.str "0x1"],
        ID := 5 } rfl rfl rfl rfl rfl).1 (by decide),
   (eth_getBlockByNumber_param_checks okServer
      (post (rpcText "2.0" "eth_getBlockByNumber" [.int 1, .str "x"] 5))
      (.json (rpcText "2.0" "eth_getBlockByNumber" [.int 1, .str "x"] 5))
      { JSONRPC := "2.0", Method := "eth_getBlockByNumber",
        Params := [.int 1, .str "x"], ID := 5 } rfl rfl rfl rfl rfl).2.1
      (.int 1) (.str "x") [] rfl (fun _ h => JSON.noConfusion h)⟩

/-- C5: a version "2.0" request whose method is neither `eth_blockNumber` nor
`eth_getBlockByNumber` (the empty method of a request without one included)
is answered with status 200 and the error envelope (-32601, "method not
found") carrying the request's id and no result, without any client call. -/
theorem unknown_method_rejected (s : Server) (r : Request) (body : Bytes)
    (request : RPCRequest)
    (hm : r.Method = "POST") (hb : r.Body = some body)
    (hp : unmarshalRPCRequest body = some request) (hv : request.JSONRPC = "2.0")
    (h1 : request.Method ≠ "eth_blockNumber")
    (h2 : request.Method ≠ "eth_getBlockByNumber") :
    HandleJSONRPC s r =
      ⟨⟨200, some (errorEnvelope request.ID (-32601) "method not found")⟩, []⟩ ∧
    (errorEnvelope request.ID (-32601) "method not found").hasKey "result" = false := by
  rw [handleJSONRPC_v2 s r body request hm hb hp hv, dispatch_unknown s request h1 h2]
  exact ⟨congrArg (fun b => (⟨⟨200, b⟩, []⟩ : Outcome)) (prepare_error _ _ _),
    by simp [errorEnvelope, JSON.hasKey, JSON.members]⟩

/-- Witness of C5: a request without `method` member. -/
theorem unknown_method_rejected_witness :
    HandleJSONRPC okServer (post (.obj [("jsonrpc", .str "2.0"), ("id", .int 2)])) =
      ⟨⟨200, some (errorEnvelope 2 (-32601) "method not found")⟩, []⟩ :=
  (unknown_method_rejected okServer
    (post (.obj [("jsonrpc", .str "2.0"), ("id", .int 2)]))
    (.json (.obj [("jsonrpc", .str "2.0"), ("id", .int 2)]))
    { JSONRPC := "2.0", ID := 2 } rfl rfl rfl rfl (by decide) (by decide)).1

/-- C6: for a version "2.0" request, when the client call made for
`eth_blockNumber`, or for `eth_getBlockByNumber` with params that pass the
checks, returns an error e, the response has status 200 and is the error
envelope with the request's id, code -32603 and the message of e, and no
result. -/
theorem client_error_reported (s : Server) (r : Request) (body : Bytes)
    (request : RPCRequest) (e : String)
    (hm : r.Method = "POST") (hb : r.Body = some body)
    (hp : unmarshalRPCRequest body = some request) (hv : request.JSONRPC = "2.0") :
    (request.Method = "eth_blockNumber" →
      (s.client.GetBlockNumber ()).2 = some e →
      (HandleJSONRPC s r).response =
        ⟨200, some (errorEnvelope request.ID (-32603) e)⟩) ∧
    (∀ n f rest, request.Method = "eth_getBlockByNumber" →
      request.Params = .str n :: .bool f :: rest →
      (s.client.GetBlockByNumber n f).2 = some e →
      (HandleJSONRPC s r).response =
        ⟨200, some (errorEnvelope request.ID (-32603) e)⟩) ∧
    (errorEnvelope request.ID (-32603) e).hasKey "result" = false := by
  rw [handleJSONRPC_v2 s r body request hm hb hp hv]
  refine ⟨?_, ?_, by simp [errorEnvelope, JSON.hasKey, JSON.members]⟩
  · intro hmeth hc
    rw [dispatch_blockNumber s request hmeth]
    rcases hres : s.client.GetBlockNumber () with ⟨v, err⟩
    rw [hres] at hc
    cases hc
    exact congrArg (fun b => (⟨200, b⟩ : Response)) (prepare_error _ _ ⟨-32603, e⟩)
  · intro n f rest hmeth hps hc
    rw [dispatch_getBlock s request n f rest hmeth hps]
    rcases hres : s.client.GetBlockByNumber n f with ⟨v, err⟩
    rw [hres] at hc
    cases hc
    exact congrArg (fun b => (⟨200, b⟩ : Response)) (prepare_error _ _ ⟨-32603, e⟩)

/-- Witness of C6: a failing client behind both methods. -/
theorem client_error_reported_witness :
    (HandleJSONRPC failingServer
        (post (rpcText "2.0" "eth_blockNumber" [] 9))).response =
      ⟨200, some (errorEnvelope 9 (-32603) "upstream down")⟩ ∧
    (HandleJSONRPC failingServer
        (post (rpcText "2.0" "eth_getBlockByNumber" [.str "0x1", .bool false] 9))).response =
      ⟨200, some (errorEnvelope 9 (-32603) "upstream down")⟩ :=
  ⟨(client_error_reported failingServer (post (rpcText "2.0" "eth_blockNumber" [] 9))
      (.json (rpcText "2.0" "eth_blockNumber" [] 9))
      { JSONRPC := "2.0", Method := "eth_blockNumber", Params := [], ID := 9 }
      "upstream down" rfl rfl rfl rfl).1 rfl rfl,
   (client_error_reported failingServer
      (post (rpcText "2.0" "eth_getBlockByNumber" [.str "0x1", .bool false] 9))
      (.json (rpcText "2.0" "eth_getBlockByNumber" [.str "0x1", .bool false] 9))
      { JSONRPC := "2.0", Method := "eth_getBlockByNumber",
        Params := [.str "0x1", .bool false], ID := 9 }
      "upstream down" rfl rfl rfl rfl).2.1 "0x1" false [] rfl rfl rfl⟩
/-- Counterexample to C7: a version "1.0" request is answered with a JSON-RPC
envelope written with HTTP status 400. -/
theorem envelope_status_counterexample :
    HandleJSONRPC okServer (post (rpcText "1.0" "eth_blockNumber" [] 2)) =
      ⟨⟨400, some (errorEnvelope 2 (-32600)
        "invalid JSON-RPC version, expected 2.0")⟩, []⟩ ∧
    isEnvelope (errorEnvelope 2 (-32600)
        "invalid JSON-RPC version, expected 2.0") = true :=
  ⟨rfl, rfl⟩

/-- C7 (amended): every JSON-RPC envelope written by `HandleJSONRPC` answers a
POST whose body decoded as a request; for a request of version "2.0" it is
written with HTTP status 200, and the only envelope written with another
status is the version error (-32600, "invalid JSON-RPC version, expected
2.0"), written with status 400 for a request of another version. -/
theorem envelope_status (s : Server) (r : Request) (j : JSON)
    (hj : (HandleJSONRPC s r).response.body = some j) (henv : isEnvelope j = true) :
    ∃ body request, r.Method = "POST" ∧ r.Body = some body ∧
      unmarshalRPCRequest body = some request ∧
      ((request.JSONRPC = "2.0" ∧ (HandleJSONRPC s r).response.status = 200) ∨
       (request.JSONRPC ≠ "2.0" ∧ (HandleJSONRPC s r).response.status = 400 ∧
        j = errorEnvelope request.ID (-32600)
          "invalid JSON-RPC version, expected 2.0")) := by
  rcases handleJSONRPC_cases s r with ⟨st, m, h⟩ | ⟨body, request, hm, hb, hp, hv, h⟩ |
    ⟨body, request, hm, hb, hp, hv, h⟩
  · rw [h] at hj
    simp only [Option.some.injEq] at hj
    subst hj
    simp [isEnvelope, errorBody, JSON.hasKey, JSON.members] at henv
  · refine ⟨body, request, hm, hb, hp, Or.inr ⟨hv, ?_, ?_⟩⟩
    · rw [h]
    · rw [h] at hj
      simpa using hj.symm
  · refine ⟨body, request, hm, hb, hp, Or.inl ⟨hv, ?_⟩⟩
    rcases h with ⟨c, m, h⟩ | ⟨v, h⟩ <;> rw [h]

/-- Witness of C7 (amended): the envelope answering an unknown method of a
version "2.0" request has status 200. -/
theorem envelope_status_witness :
    ∃ body request, (post (rpcText "2.0" "net_version" [] 2)).Method = "POST" ∧
      (post (rpcText "2.0" "net_version" [] 2)).Body = some body ∧
      unmarshalRPCRequest body = some request ∧
      ((request.JSONRPC = "2.0" ∧
        (HandleJSONRPC okServer (post (rpcText "2.0" "net_version" [] 2))).response.status
          = 200) ∨
       (request.JSONRPC ≠ "2.0" ∧
        (HandleJSONRPC okServer (post (rpcText "2.0" "net_version" [] 2))).response.status
          = 400 ∧
        errorEnvelope 2 (-32601) "method not found" =
          errorEnvelope request.ID (-32600) "invalid JSON-RPC version, expected 2.0")) :=
  envelope_status okServer (post (rpcText "2.0" "net_version" [] 2))
    (errorEnvelope 2 (-32601) "method not found") rfl rfl

/-- C8: `HandleJSONRPC` always writes a body, and every body it writes that is
an envelope (has a `jsonrpc` member) has exactly one member among `result` and
`error`, whatever the request and whatever the client returns. -/
theorem envelope_result_xor_error (s : Server) (r : Request) :
    (∃ j, (HandleJSONRPC s r).response.body = some j) ∧
    ∀ j, (HandleJSONRPC s r).response.body = some j → j.hasKey "jsonrpc" = true →
      (j.members "result").length + (j.members "error").length = 1 := by
  rcases handleJSONRPC_cases s r with ⟨st, m, h⟩ | ⟨body, request, hm, hb, hp, hv, h⟩ |
    ⟨body, request, hm, hb, hp, hv, ⟨c, m, h⟩ | ⟨v, h⟩⟩ <;> rw [h] <;>
    refine ⟨⟨_, rfl⟩, ?_⟩ <;> intro j hj henv <;>
    simp only [Option.some.injEq] at hj <;> subst hj
  · simp [errorBody, JSON.hasKey, JSON.members] at henv
  · simp [errorEnvelope, JSON.members]
  · simp [errorEnvelope, JSON.members]
  · simp [resultEnvelope, JSON.members]

/-- Witness of C8: a client returning a nil block without error gives the
envelope with `result` null and no `error`; a client returning a block that
does not encode gives the envelope with an `error` and no `result`. -/
theorem envelope_result_xor_error_witness :
    ((resultEnvelope 2 .null).members "result").length +
        ((resultEnvelope 2 .null).members "error").length = 1 ∧
    ((errorEnvelope 2 (-32603) "failed to marshal result").members "result").length +
        ((errorEnvelope 2 (-32603) "failed to marshal result").members "error").length
      = 1 :=
  ⟨(envelope_result_xor_error nilServer
      (post (rpcText "2.0" "eth_getBlockByNumber" [.str "0x1", .bool true] 2))).2
      (resultEnvelope 2 .null) rfl rfl,
   (envelope_result_xor_error brokenServer
      (post (rpcText "2.0" "eth_getBlockByNumber" [.str "0x1", .bool true] 2))).2
      (errorEnvelope 2 (-32603) "failed to marshal result") rfl rfl⟩

/-- C9: a GET on `HandleGetBlockByNumber` whose query has no `number`
parameter, or whose `number` parameter is empty, is answered with status 400
and the body with the single member error "block number is required",
whatever else the query holds, without any client call. -/
theorem block_number_required (s : Server) (r : Request) (hm : r.Method = "GET")
    (hq : queryValues r.Query "number" = [] ∨
      (queryValues r.Query "number").head? = some "") :
    HandleGetBlockByNumber s r =
      ⟨⟨400, some (.obj [("error", .str "block number is required")])⟩, []⟩ := by
  have hn : queryGet r.Query "number" = "" := by
    rcases hq with h | h
    · simp [queryGet, h]
    · exact queryGet_of_head _ _ _ h
  simp [HandleGetBlockByNumber, hm, hn, writeJSONResponse, ResponseData.marshal]

/-- Witness of C9: no `number` parameter next to a `full` parameter. -/
theorem block_number_required_witness :
    HandleGetBlockByNumber okServer (get [("full", "true")]) =
      ⟨⟨400, some (.obj [("error", .str "block number is required")])⟩, []⟩ :=
  block_number_required okServer (get [("full", "true")]) rfl (Or.inl rfl)

/-- Counterexample to C10: the client returns, without error, a block whose
transactions payload is not a JSON text; the handler writes status 200 and no
body at all. -/
theorem rest_block_unencodable_counterexample :
    brokenServer.client.GetBlockByNumber "0x1234567" true = (some brokenBlock, none) ∧
    HandleGetBlockByNumber brokenServer (get [("number", "0x1234567"), ("full", "true")]) =
      ⟨⟨200, none⟩, [.getBlockByNumber "0x1234567" true]⟩ :=
  ⟨rfl, rfl⟩

/-- C10 (amended): a GET on `HandleGetBlockByNumber` with a non-empty `number`
parameter n makes exactly one client call, `GetBlockByNumber(n, f)`, where f
is true when the value of the `full` parameter is exactly "true" and false for
every other value and for an absent parameter; when the call returns a block
pointer without error and the block encodes to JSON as v, the response has
status 200 and the body with the single member block = v. -/
theorem rest_block_by_number (s : Server) (r : Request) (n : String)
    (hm : r.Method = "GET") (hq : (queryValues r.Query "number").head? = some n)
    (hn : n ≠ "") :
    ((queryValues r.Query "full").head? = some "true" →
      (HandleGetBlockByNumber s r).calls = [.getBlockByNumber n true]) ∧
    ((queryValues r.Query "full").head? ≠ some "true" →
      (HandleGetBlockByNumber s r).calls = [.getBlockByNumber n false]) ∧
    (∀ f p v, (HandleGetBlockByNumber s r).calls = [.getBlockByNumber n f] →
      s.client.GetBlockByNumber n f = (p, none) → marshalBlockPtr p = some v →
      (HandleGetBlockByNumber s r).response = ⟨200, some (.obj [("block", v)])⟩) := by
  have hnum : queryGet r.Query "number" = n := queryGet_of_head _ _ _ hq
  have hfull := queryGet_eq_iff r.Query "full" "true" (by decide)
  have hshape : ∀ f : Bool, (f = true ↔ queryGet r.Query "full" = "true") →
      HandleGetBlockByNumber s r =
        match s.client.GetBlockByNumber n f with
        | (_, some err) =>
          ⟨writeJSONResponse 500 (.error ⟨err⟩), [.getBlockByNumber n f]⟩
        | (block, none) =>
          ⟨writeJSONResponse 200 (.block ⟨block⟩), [.getBlockByNumber n f]⟩ := by
    intro f hf
    have hdec : decide (queryGet r.Query "full" = "true") = f := by
      cases f
      · simpa using hf
      · simpa using hf
    unfold HandleGetBlockByNumber
    simp only [hm, hnum, hdec, ne_eq, not_true_eq_false, if_false, hn]
  have hcalls : ∀ f : Bool, (f = true ↔ queryGet r.Query "full" = "true") →
      (HandleGetBlockByNumber s r).calls = [.getBlockByNumber n f] := by
    intro f hf
    rw [hshape f hf]
    rcases s.client.GetBlockByNumber n f with ⟨p, _ | e⟩ <;> rfl
  refine ⟨?_, ?_, ?_⟩
  · intro h
    exact hcalls true (by simp [hfull, h])
  · intro h
    exact hcalls false (by simp [hfull, h])
  · intro f p v hc hcl hv
    have hf : f = true ↔ queryGet r.Query "full" = "true" := by
      by_cases h : queryGet r.Query "full" = "true"
      · have := hcalls true (by simp [h])
        rw [this] at hc
        simp at hc
        simp [h, hc]
      · have := hcalls false (by simp [h])
        rw [this] at hc
        simp at hc
        simp [h, ← hc]
    rw [hshape f hf, hcl]
    simp [writeJSONResponse, ResponseData.marshal, hv]

/-- Witness of C10 (amended): the values "True", "1", "TRUE", the empty value
and an absent `full` give f = false, "true" gives f = true, and the block
returned is sent back under `block`. -/
theorem rest_block_by_number_witness :
    (HandleGetBlockByNumber okServer
        (get [("number", "0x1234567"), ("full", "True")])).calls =
      [.getBlockByNumber "0x1234567" false] ∧
    (HandleGetBlockByNumber okServer
        (get [("number", "0x1234567"), ("full", "1")])).calls =
      [.getBlockByNumber "0x1234567" false] ∧
    (HandleGetBlockByNumber okServer
        (get [("number", "0x1234567"), ("full", "TRUE")])).calls =
      [.getBlockByNumber "0x1234567" false] ∧
    (HandleGetBlockByNumber okServer
        (get [("number", "0x1234567"), ("full", "")])).calls =
      [.getBlockByNumber "0x1234567" false] ∧
    (HandleGetBlockByNumber okServer (get [("number", "0x1234567")])).calls =
      [.getBlockByNumber "0x1234567" false] ∧
    (HandleGetBlockByNumber okServer
        (get [("number", "0x1234567"), ("full", "true")])).calls =
      [.getBlockByNumber "0x1234567" true] ∧
    (HandleGetBlockByNumber okServer
        (get [("number", "0x1234567"), ("full", "true")])).response =
      ⟨200, some (.obj [("block",
        .obj [("number", .str "0x1234567"), ("hash", .str "0xabcdef1234567890"),
          ("parentHash", .str "0x1234567890abcdef"), ("nonce", .str "0x123456"),
          ("timestamp", .str "0x60123456"),
          ("transactions", .arr [.str "0xtx1", .str "0xtx2"]),
          ("transactionCount", .int 2)])])⟩ :=
  ⟨(rest_block_by_number okServer (get [("number", "0x1234567"), ("full", "True")])
      "0x1234567" rfl rfl (by decide)).2.1 (by decide),
   (rest_block_by_number okServer (get [("number", "0x1234567"), ("full", "1")])
      "0x1234567" rfl rfl (by decide)).2.1 (by decide),
   (rest_block_by_number okServer (get [("number", "0x1234567"), ("full", "TRUE")])
      "0x1234567" rfl rfl (by decide)).2.1 (by decide),
   (rest_block_by_number okServer (get [("number", "0x1234567"), ("full", "")])
      "0x1234567" rfl rfl (by decide)).2.1 (by decide),
   (rest_block_by_number okServer (get [("number", "0x1234567")])
      "0x1234567" rfl rfl (by decide)).2.1 (by decide),
   (rest_block_by_number okServer (get [("number", "0x1234567"), ("full", "true")])
      "0x1234567" rfl rfl (by decide)).1 rfl,
   (rest_block_by_number okServer (get [("number", "0x1234567"), ("full", "true")])
      "0x1234567" rfl rfl (by decide)).2.2 true (some sampleBlock) _ rfl rfl rfl⟩

/-! ## Lemmas on the upstream client -/

/-- A reply with a status other than 200 makes `call` fail. -/
theorem call_bad_status (c : Client) (method : String) (params : List JSON) (st : Int)
    (hst : (c.httpPost c.rpcURL (RPCRequest.marshal
      { JSONRPC := "2.0", Method := method, Params := params, ID := 2 })).StatusCode
        = some st) (hne : st ≠ 200) :
    c.call method params = .error ("unexpected status code: " ++ toString st) := by
  unfold Client.call
  cases hr : c.httpPost c.rpcURL (RPCRequest.marshal
      { JSONRPC := "2.0", Method := method, Params := params, ID := 2 }) with
  | failed cause => rw [hr] at hst; cases hst
  | answered status body =>
    rw [hr] at hst
    cases hst
    simp only [hr]
    rw [if_pos hne]
  | truncated status cause =>
    rw [hr] at hst
    cases hst
    simp only [hr]
    rw [if_pos hne]

/-- A reply with status 200 whose body does not decode makes `call` fail. -/
theorem call_undecodable (c : Client) (method : String) (params : List JSON)
    (body : Bytes)
    (hr : c.httpPost c.rpcURL (RPCRequest.marshal
      { JSONRPC := "2.0", Method := method, Params := params, ID := 2 })
        = .answered 200 body)
    (hd : unmarshalRPCResponse body = none) :
    c.call method params =
      .error ("failed to unmarshal response: " ++
        c.jsonErrorText "RPCResponse" (some body)) := by
  unfold Client.call
  simp only [hr, hd, ne_eq, not_true_eq_false, if_false]

/-- A reply with status 200 whose envelope carries an error makes `call`
fail with the text of that error. -/
theorem call_rpc_error (c : Client) (method : String) (params : List JSON)
    (body : Bytes) (resp : RPCResponse) (e : RPCError)
    (hr : c.httpPost c.rpcURL (RPCRequest.marshal
      { JSONRPC := "2.0", Method := method, Params := params, ID := 2 })
        = .answered 200 body)
    (hd : unmarshalRPCResponse body = some resp) (he : resp.Error = some e) :
    c.call method params =
      .error ("RPC error: " ++ e.Message ++ " (code: " ++ toString e.Code ++ ")") := by
  unfold Client.call
  simp only [hr, hd, he, ne_eq, not_true_eq_false, if_false]

/-- A reply with status 200 whose envelope carries no error is returned by
`call`. -/
theorem call_ok (c : Client) (method : String) (params : List JSON)
    (body : Bytes) (resp : RPCResponse)
    (hr : c.httpPost c.rpcURL (RPCRequest.marshal
      { JSONRPC := "2.0", Method := method, Params := params, ID := 2 })
        = .answered 200 body)
    (hd : unmarshalRPCResponse body = some resp) (he : resp.Error = none) :
    c.call method params = .ok resp := by
  unfold Client.call
  simp only [hr, hd, he, ne_eq, not_true_eq_false, if_false]

/-- A decoded `[]string` has one element per element of the JSON array. -/
theorem decodeStrings_length (xs : List JSON) :
    ∀ ys, decodeStrings xs = some ys → ys.length = xs.length := by
  induction xs with
  | nil => intro ys h; cases h; rfl
  | cons x xs ih =>
    intro ys h
    unfold decodeStrings at h
    cases hx : decodeString "" x with
    | none => simp [hx] at h
    | some v =>
      cases hxs : decodeStrings xs with
      | none => simp [hx, hxs] at h
      | some vs =>
        simp only [hx, hxs, Option.some.injEq] at h
        subst h
        simp [ih vs hxs]

/-- An array of JSON strings decodes into a `[]string`. -/
theorem decodeStrings_of_strings (xs : List JSON) (h : ∀ x ∈ xs, ∃ v, x = .str v) :
    ∃ ys, decodeStrings xs = some ys := by
  induction xs with
  | nil => exact ⟨[], rfl⟩
  | cons x xs ih =>
    obtain ⟨v, hv⟩ := h x (List.mem_cons_self _ _)
    obtain ⟨ys, hys⟩ := ih (fun y hy => h y (List.mem_cons_of_mem _ hy))
    exact ⟨v :: ys, by simp [decodeStrings, hv, decodeString, hys]⟩

/-- An array with an element that is neither a string nor `null` does not
decode into a `[]string`. -/
theorem decodeStrings_of_bad (xs : List JSON)
    (h : ∃ x ∈ xs, (∀ v, x ≠ .str v) ∧ x ≠ .null) : decodeStrings xs = none := by
  induction xs with
  | nil => obtain ⟨x, hx, _⟩ := h; cases hx
  | cons y ys ih =>
    obtain ⟨x, hx, hs, hn⟩ := h
    rcases List.mem_cons.1 hx with rfl | hmem
    · have hd : decodeString "" x = none := by
        cases x <;> first | rfl | exact absurd rfl hn | exact absurd rfl (hs _)
      simp [decodeStrings, hd]
    · have := ih ⟨x, hmem, hs, hn⟩
      unfold decodeStrings
      rw [this]
      cases decodeString "" y <;> rfl

/-- An integer literal in the range of a Go `int` decodes to its value. -/
theorem decodeInt_of_range (cur n : Int) (h : isGoInt n) :
    decodeInt cur (.int n) = some n := by
  simp only [decodeInt]
  exact if_pos h

/-- Decoding the encoding of a block gives the block back, with its
transactions payload as a JSON text. -/
theorem decode_marshal_block (b : Block) (v : JSON)
    (hv : RawMessage.marshal b.Transactions = some v) (hn : isGoInt b.TransactionCount) :
    ∃ kvs, b.marshal = some (.obj kvs) ∧
      kvs.foldlM Block.setField {} = some { b with Transactions := some (.json v) } := by
  refine ⟨[("number", .str b.Number), ("hash", .str b.Hash),
      ("parentHash", .str b.ParentHash), ("nonce", .str b.Nonce),
      ("timestamp", .str b.Timestamp), ("transactions", v),
      ("transactionCount", .int b.TransactionCount)], by simp only [Block.marshal, hv], ?_⟩
  have h1 : ∀ (c : Block) (x : String), Block.setField c ("number", .str x) =
      some { c with Number := x } := fun _ _ => rfl
  have h2 : ∀ (c : Block) (x : String), Block.setField c ("hash", .str x) =
      some { c with Hash := x } := fun _ _ => rfl
  have h3 : ∀ (c : Block) (x : String), Block.setField c ("parentHash", .str x) =
      some { c with ParentHash := x } := fun _ _ => rfl
  have h4 : ∀ (c : Block) (x : String), Block.setField c ("nonce", .str x) =
      some { c with Nonce := x } := fun _ _ => rfl
  have h5 : ∀ (c : Block) (x : String), Block.setField c ("timestamp", .str x) =
      some { c with Timestamp := x } := fun _ _ => rfl
  have h6 : ∀ (c : Block) (x : JSON), Block.setField c ("transactions", x) =
      some { c with Transactions := some (.json x) } := fun _ _ => rfl
  have h7 : ∀ (c : Block), Block.setField c ("transactionCount", .int b.TransactionCount) =
      some { c with TransactionCount := b.TransactionCount } := by
    intro c
    have : Block.setField c ("transactionCount", .int b.TransactionCount) =
        (decodeInt c.TransactionCount (.int b.TransactionCount)).map
          (fun n => { c with TransactionCount := n }) := rfl
    rw [this, decodeInt_of_range _ _ hn]
    rfl
  simp only [List.foldlM, h1, h2, h3, h4, h5, h6, h7, Option.bind_eq_bind,
    Option.some_bind, Option.pure_def]

/-! ## Theorems on the REST handler of the latest block and on the client -/

set_option exponentiation.threshold 1024

/-- C11: `HandleGetBlockNumber` depends only on the HTTP method and on the
answer of the client: a method other than GET gives status 405 with the error
body "method not allowed" and no client call; a GET gives status 200 with the
body blockNumber = s when the client returns the string s without error, and
status 500 with the error body holding the message of e when the client
returns an error e. -/
theorem latest_block_number (s : Server) (r : Request) :
    (r.Method ≠ "GET" →
      HandleGetBlockNumber s r =
        ⟨⟨405, some (.obj [("error", .str "method not allowed")])⟩, []⟩) ∧
    (∀ v, r.Method = "GET" → s.client.GetBlockNumber () = (v, none) →
      (HandleGetBlockNumber s r).response =
        ⟨200, some (.obj [("blockNumber", .str v)])⟩) ∧
    (∀ v e, r.Method = "GET" → s.client.GetBlockNumber () = (v, some e) →
      (HandleGetBlockNumber s r).response = ⟨500, some (.obj [("error", .str e)])⟩) ∧
    (∀ r2 : Request, r2.Method = r.Method →
      HandleGetBlockNumber s r2 = HandleGetBlockNumber s r) := by
  refine ⟨?_, ?_, ?_, ?_⟩
  · intro hm
    simp [HandleGetBlockNumber, hm, writeJSONResponse, ResponseData.marshal]
  · intro v hm hc
    simp [HandleGetBlockNumber, hm, hc, writeJSONResponse, ResponseData.marshal]
  · intro v e hm hc
    simp [HandleGetBlockNumber, hm, hc, writeJSONResponse, ResponseData.marshal]
  · intro r2 h
    simp only [HandleGetBlockNumber, h]

/-- Witness of C11: a POST, a GET answered by the client, and a GET on a
failing client. -/
theorem latest_block_number_witness :
    HandleGetBlockNumber okServer { Method := "POST" } =
      ⟨⟨405, some (.obj [("error", .str "method not allowed")])⟩, []⟩ ∧
    (HandleGetBlockNumber okServer (get [])).response =
      ⟨200, some (.obj [("blockNumber", .str "0x1234567")])⟩ ∧
    (HandleGetBlockNumber failingServer (get [])).response =
      ⟨500, some (.obj [("error", .str "upstream down")])⟩ :=
  ⟨(latest_block_number okServer { Method := "POST" }).1 (by decide),
   (latest_block_number okServer (get [])).2.1 "0x1234567" rfl rfl,
   (latest_block_number failingServer (get [])).2.2.1 "" "upstream down" rfl rfl⟩

/-- Counterexample to C12: with `full` true, a transactions array holding the
number 1e999, which no float64 holds, does not decode into a
`[]interface{}`, and the block returned has `TransactionCount` 0, not 1. -/
theorem out_of_range_transaction_counterexample :
    fitsAnyList [.real "1e999"] = false ∧
    Client.GetBlockByNumber
        (stubClient (resultReply (upstreamBlock (.arr [.real "1e999"]))))
        "0x1234567" true =
      (some { decodedBlock (.arr [.real "1e999"]) with TransactionCount := 0 }, none) :=
  ⟨rfl, rfl⟩

/-- C12 (amended): when the upstream reply to `GetBlockByNumber(n, full)` has
status 200, carries no error and its result decodes as a block whose
transactions payload is a JSON array, the block returned has
`TransactionCount` equal to the number of elements of that array, for an array
whose numbers all fit a float64 when `full` is true and for an array of
strings when `full` is false, whatever `transactionCount` the upstream result
carries; the other fields are those decoded. -/
theorem transaction_count_is_length (c : Client) (n : String) (full : Bool)
    (body : Bytes) (resp : RPCResponse) (block : Block) (xs : List JSON)
    (hr : c.httpPost c.rpcURL (blockByNumberRequest n full) = .answered 200 body)
    (hd : unmarshalRPCResponse body = some resp) (he : resp.Error = none)
    (hb : unmarshalBlock resp.Result = some block)
    (htx : block.Transactions = some (.json (.arr xs)))
    (hmode : (full = true ∧ fitsAnyList xs = true) ∨
      (full = false ∧ ∀ x ∈ xs, ∃ v, x = .str v)) :
    c.GetBlockByNumber n full =
      (some { block with TransactionCount := (xs.length : Int) }, none) := by
  have hcount : txCount block.Transactions full = (xs.length : Int) := by
    rw [htx]
    rcases hmode with ⟨hf, hfit⟩ | ⟨hf, hstr⟩
    · rw [hf]
      simp [txCount, unmarshalAnySlice, RawMessage.parse, decodeAnySlice, hfit]
    · rw [hf]
      obtain ⟨ys, hys⟩ := decodeStrings_of_strings xs hstr
      have hlen := decodeStrings_length xs ys hys
      simp [txCount, unmarshalStringSlice, RawMessage.parse, decodeStringSlice, hys, hlen]
  unfold Client.GetBlockByNumber
  rw [call_ok c _ _ body resp hr hd he]
  simp only [hb, hcount]

/-- Witness of C12 (amended): two transaction objects with `full` true, and
two transaction hashes with `full` false, next to an upstream
`transactionCount` of 99. -/
theorem transaction_count_is_length_witness :
    (stubClient (resultReply (upstreamBlock twoTxObjects))).GetBlockByNumber
        "0x1234567" true =
      (some { decodedBlock twoTxObjects with TransactionCount := 2 }, none) ∧
    Client.GetBlockByNumber
        (stubClient (resultReply (upstreamBlock (.arr [.str "0xtx1", .str "0xtx2"]))))
        "0x1234567" false =
      (some { decodedBlock (.arr [.str "0xtx1", .str "0xtx2"]) with
        TransactionCount := 2 }, none) :=
  ⟨transaction_count_is_length (stubClient (resultReply (upstreamBlock twoTxObjects)))
      "0x1234567" true (.json (resultEnvelope 2 (upstreamBlock twoTxObjects)))
      { JSONRPC := "2.0", Result := some (.json (upstreamBlock twoTxObjects)), ID := 2 }
      (decodedBlock twoTxObjects)
      [.obj [("hash", .str "0xtx1"), ("from", .str "0xaddr1")],
        .obj [("hash", .str "0xtx2"), ("from", .str "0xaddr3")]]
      rfl rfl rfl rfl rfl (Or.inl ⟨rfl, rfl⟩),
   transaction_count_is_length
      (stubClient (resultReply (upstreamBlock (.arr [.str "0xtx1", .str "0xtx2"]))))
      "0x1234567" false
      (.json (resultEnvelope 2 (upstreamBlock (.arr [.str "0xtx1", .str "0xtx2"]))))
      { JSONRPC := "2.0",
        Result := some (.json (upstreamBlock (.arr [.str "0xtx1", .str "0xtx2"]))),
        ID := 2 }
      (decodedBlock (.arr [.str "0xtx1", .str "0xtx2"]))
      [.str "0xtx1", .str "0xtx2"]
      rfl rfl rfl rfl rfl
      (Or.inr ⟨rfl, by
        intro x hx
        simp only [List.mem_cons, List.mem_singleton, List.not_mem_nil, or_false] at hx
        rcases hx with rfl | rfl
        · exact ⟨_, rfl⟩
        · exact ⟨_, rfl⟩⟩)⟩

/-- Counterexample to C13: with `full` false, a transactions array holding a
`null`, which is not a string, decodes, and the block returned has
`TransactionCount` 1, not 0. -/
theorem null_transaction_counterexample :
    (stubClient (resultReply (upstreamBlock (.arr [.null])))).GetBlockByNumber
        "0x1234567" false =
      (some { decodedBlock (.arr [.null]) with TransactionCount := 1 }, none) :=
  rfl

/-- C13 (amended): when the upstream reply to `GetBlockByNumber(n, full)` has
status 200, carries no error and its result decodes as a block, and the
transactions payload of that block is absent, or is not an array, or, with
`full` false, is an array with an element that is neither a string nor
`null`, the client returns without error the decoded block with
`TransactionCount` 0 and its other fields unchanged. -/
theorem transaction_count_fallback (c : Client) (n : String) (full : Bool)
    (body : Bytes) (resp : RPCResponse) (block : Block)
    (hr : c.httpPost c.rpcURL (blockByNumberRequest n full) = .answered 200 body)
    (hd : unmarshalRPCResponse body = some resp) (he : resp.Error = none)
    (hb : unmarshalBlock resp.Result = some block)
    (htx : block.Transactions = none ∨
      (∃ v, block.Transactions = some (.json v) ∧ ∀ xs, v ≠ .arr xs) ∨
      (full = false ∧ ∃ xs, block.Transactions = some (.json (.arr xs)) ∧
        ∃ x ∈ xs, (∀ v, x ≠ .str v) ∧ x ≠ .null)) :
    c.GetBlockByNumber n full = (some { block with TransactionCount := 0 }, none) := by
  have hcount : txCount block.Transactions full = 0 := by
    rcases htx with h | ⟨v, h, hv⟩ | ⟨hf, xs, h, hx⟩
    · rw [h]
      cases full <;> rfl
    · rw [h]
      cases v <;> first | exact absurd rfl (hv _) | (cases full <;> rfl)
    · rw [h, hf]
      simp [txCount, unmarshalStringSlice, RawMessage.parse, decodeStringSlice,
        decodeStrings_of_bad xs hx]
  unfold Client.GetBlockByNumber
  rw [call_ok c _ _ body resp hr hd he]
  simp only [hb, hcount]

/-- Witness of C13 (amended): with `full` false, a transactions array holding
a number gives `TransactionCount` 0 and leaves the other fields as decoded. -/
theorem transaction_count_fallback_witness :
    Client.GetBlockByNumber
        (stubClient (resultReply (upstreamBlock (.arr [.str "0xtx1", .int 7]))))
        "0x1234567" false =
      (some { decodedBlock (.arr [.str "0xtx1", .int 7]) with TransactionCount := 0 },
        none) :=
  transaction_count_fallback
    (stubClient (resultReply (upstreamBlock (.arr [.str "0xtx1", .int 7]))))
    "0x1234567" false
    (.json (resultEnvelope 2 (upstreamBlock (.arr [.str "0xtx1", .int 7]))))
    { JSONRPC := "2.0",
      Result := some (.json (upstreamBlock (.arr [.str "0xtx1", .int 7]))), ID := 2 }
    (decodedBlock (.arr [.str "0xtx1", .int 7])) rfl rfl rfl rfl
    (Or.inr (Or.inr ⟨rfl, [.str "0xtx1", .int 7], rfl, .int 7,
      by simp, fun _ h => JSON.noConfusion h, fun h => JSON.noConfusion h⟩))

/-- C14: for a block whose transactions payload is a JSON text, and for any
`TransactionCount` (a Go `int`), encoding the block and decoding the result
succeeds and gives the block back, with the same `TransactionCount`; the same
holds through a `BlockResponse`. -/
theorem block_roundtrip (b : Block) (v : JSON) (hv : b.Transactions = some (.json v))
    (hn : isGoInt b.TransactionCount) :
    (∃ j b2, b.marshal = some j ∧ unmarshalBlock (some (.json j)) = some b2 ∧
      b2.TransactionCount = b.TransactionCount ∧ b2 = b) ∧
    (∃ j b2, ResponseData.marshal (.block ⟨some b⟩) = some j ∧
      unmarshalBlockResponse (.json j) = some ⟨some b2⟩ ∧
      b2.TransactionCount = b.TransactionCount ∧ b2 = b) := by
  have hm : RawMessage.marshal b.Transactions = some v := by rw [hv]; rfl
  obtain ⟨kvs, hkvs, hdec⟩ := decode_marshal_block b v hm hn
  have hback : ({ b with Transactions := some (.json v) } : Block) = b := by
    rw [← hv]
  rw [hback] at hdec
  refine ⟨⟨.obj kvs, b, hkvs, ?_, rfl, rfl⟩, ⟨.obj [("block", .obj kvs)], b, ?_, ?_, rfl, rfl⟩⟩
  · simp only [unmarshalBlock, RawMessage.parse, Option.some_bind, decodeBlock, hdec]
  · simp only [ResponseData.marshal, marshalBlockPtr, hkvs, Option.map_some']
  · have hstep : BlockResponse.setField ⟨none⟩ ("block", .obj kvs) =
        (decodeBlockPtr none (.obj kvs)).map (fun p => ⟨p⟩) := rfl
    simp only [unmarshalBlockResponse, List.foldlM, hstep, decodeBlockPtr, Option.getD_none,
      hdec, Option.map_some', Option.bind_eq_bind, Option.some_bind, Option.pure_def]

/-- Witness of C14: the block of the regression test, built by
`CreateMockBlock` with a count of 2. -/
theorem block_roundtrip_witness :
    (∃ j b2, (CreateMockBlock "0x1234567" "0xabcdef1234567890" "0x1234567890abcdef"
        "0x123456" "0x60123456" 2
        (some (.json (.arr [.str "0xtx1", .str "0xtx2"])))).marshal = some j ∧
      unmarshalBlock (some (.json j)) = some b2 ∧ b2.TransactionCount = 2 ∧
      b2 = CreateMockBlock "0x1234567" "0xabcdef1234567890" "0x1234567890abcdef"
        "0x123456" "0x60123456" 2 (some (.json (.arr [.str "0xtx1", .str "0xtx2"])))) :=
  (block_roundtrip
    (CreateMockBlock "0x1234567" "0xabcdef1234567890" "0x1234567890abcdef"
      "0x123456" "0x60123456" 2 (some (.json (.arr [.str "0xtx1", .str "0xtx2"]))))
    (.arr [.str "0xtx1", .str "0xtx2"]) rfl (by unfold isGoInt CreateMockBlock; decide)).1

/-- C15: for `GetBlockNumber` and for `GetBlockByNumber`, an upstream reply
with a status other than 200, or with status 200 and a body that does not
decode as a response envelope, or with status 200 and an envelope whose error
is not null (whatever result it carries) gives an error and no value (the
empty string, the nil block); for an upstream error with message m and code c
the text of the error is "RPC error: m (code: c)". -/
theorem upstream_failure_is_error (c : Client) (n : String) (f : Bool) :
    (∀ st, (c.httpPost c.rpcURL blockNumberRequest).StatusCode = some st → st ≠ 200 →
      c.GetBlockNumber = ("", some ("unexpected status code: " ++ toString st))) ∧
    (∀ st, (c.httpPost c.rpcURL (blockByNumberRequest n f)).StatusCode = some st →
      st ≠ 200 →
      c.GetBlockByNumber n f = (none, some ("unexpected status code: " ++ toString st))) ∧
    (∀ body, c.httpPost c.rpcURL blockNumberRequest = .answered 200 body →
      unmarshalRPCResponse body = none → ∃ e, c.GetBlockNumber = ("", some e)) ∧
    (∀ body, c.httpPost c.rpcURL (blockByNumberRequest n f) = .answered 200 body →
      unmarshalRPCResponse body = none → ∃ e, c.GetBlockByNumber n f = (none, some e)) ∧
    (∀ body resp code m, c.httpPost c.rpcURL blockNumberRequest = .answered 200 body →
      unmarshalRPCResponse body = some resp → resp.Error = some ⟨code, m⟩ →
      c.GetBlockNumber =
        ("", some ("RPC error: " ++ m ++ " (code: " ++ toString code ++ ")"))) ∧
    (∀ body resp code m,
      c.httpPost c.rpcURL (blockByNumberRequest n f) = .answered 200 body →
      unmarshalRPCResponse body = some resp → resp.Error = some ⟨code, m⟩ →
      c.GetBlockByNumber n f =
        (none, some ("RPC error: " ++ m ++ " (code: " ++ toString code ++ ")"))) := by
  refine ⟨?_, ?_, ?_, ?_, ?_, ?_⟩
  · intro st hst hne
    unfold Client.GetBlockNumber
    rw [call_bad_status c _ _ st hst hne]
  · intro st hst hne
    unfold Client.GetBlockByNumber
    rw [call_bad_status c _ _ st hst hne]
  · intro body hr hd
    unfold Client.GetBlockNumber
    rw [call_undecodable c _ _ body hr hd]
    exact ⟨_, rfl⟩
  · intro body hr hd
    unfold Client.GetBlockByNumber
    rw [call_undecodable c _ _ body hr hd]
    exact ⟨_, rfl⟩
  · intro body resp code m hr hd he
    unfold Client.GetBlockNumber
    rw [call_rpc_error c _ _ body resp _ hr hd he]
  · intro body resp code m hr hd he
    unfold Client.GetBlockByNumber
    rw [call_rpc_error c _ _ body resp _ hr hd he]

/-- Witness of C15: the error reply of the test suite on `GetBlockByNumber`,
an envelope with both a result and an error on `GetBlockNumber`, and a reply
with status 503. -/
theorem upstream_failure_is_error_witness :
    Client.GetBlockByNumber
        (stubClient (.answered 200 (.json (errorEnvelope 2 (-32000) "Invalid block number"))))
        "0xinvalid" true =
      (none, some "RPC error: Invalid block number (code: -32000)") ∧
    Client.GetBlockNumber (stubClient (.answered 200 (.json resultAndErrorEnvelope))) =
      ("", some "RPC error: Invalid block number (code: -32000)") ∧
    Client.GetBlockNumber (stubClient (.answered 503 (.json (resultEnvelope 2 (.str "0x1")))))
      = ("", some "unexpected status code: 503") :=
  ⟨(upstream_failure_is_error
      (stubClient (.answered 200 (.json (errorEnvelope 2 (-32000) "Invalid block number"))))
      "0xinvalid" true).2.2.2.2.2
      (.json (errorEnvelope 2 (-32000) "Invalid block number"))
      { JSONRPC := "2.0", Error := some ⟨-32000, "Invalid block number"⟩, ID := 2 }
      (-32000) "Invalid block number" rfl rfl rfl,
   (upstream_failure_is_error (stubClient (.answered 200 (.json resultAndErrorEnvelope)))
      "" false).2.2.2.2.1
      (.json resultAndErrorEnvelope)
      { JSONRPC := "2.0", Result := some (.json (.str "0x1234567")),
        Error := some ⟨-32000, "Invalid block number"⟩, ID := 2 }
      (-32000) "Invalid block number" rfl rfl rfl,
   (upstream_failure_is_error
      (stubClient (.answered 503 (.json (resultEnvelope 2 (.str "0x1"))))) "" false).1
      503 rfl (by decide)⟩

/-- Counterexample to C16: the envelope of the reply carries the result
`null`, which is not a JSON string, and `GetBlockNumber` returns the empty
string without error. -/
theorem null_block_number_counterexample :
    unmarshalRPCResponse (.json (resultEnvelope 2 .null)) =
      some { JSONRPC := "2.0", Result := some (.json .null), ID := 2 } ∧
    Client.GetBlockNumber (stubClient (resultReply .null)) = ("", none) :=
  ⟨rfl, rfl⟩

/-- C16 (amended): when the upstream reply to `GetBlockNumber` has status 200
and decodes as an envelope without error, the client returns the string s
without error exactly when the result of the envelope is the JSON string s,
returned as it stands, or when the result is `null` and s is empty; when the
result is absent, or is a JSON value that is neither a string nor `null`, it
returns an error and the empty string. -/
theorem block_number_verbatim (c : Client) (body : Bytes) (resp : RPCResponse)
    (hr : c.httpPost c.rpcURL blockNumberRequest = .answered 200 body)
    (hd : unmarshalRPCResponse body = some resp) (he : resp.Error = none) :
    (∀ v, c.GetBlockNumber = (v, none) ↔
      (resp.Result = some (.json (.str v)) ∨
        (resp.Result = some (.json .null) ∧ v = ""))) ∧
    ((resp.Result = none ∨
        ∃ j, resp.Result = some (.json j) ∧ (∀ v, j ≠ .str v) ∧ j ≠ .null) →
      ∃ e, c.GetBlockNumber = ("", some e)) := by
  have hcall : c.GetBlockNumber =
      match unmarshalString resp.Result with
      | none =>
        ("", some ("failed to unmarshal block number: " ++
          c.jsonErrorText "string" resp.Result))
      | some blockNumber => (blockNumber, none) := by
    unfold Client.GetBlockNumber
    rw [call_ok c _ _ body resp hr hd he]
  rw [hcall]
  constructor
  · intro v
    rcases hres : resp.Result with _ | ⟨j | raw⟩
    · simp [unmarshalString, RawMessage.parse]
    · cases j <;> simp [unmarshalString, RawMessage.parse, decodeString, eq_comm]
    · simp [unmarshalString, RawMessage.parse]
  · rintro (h | ⟨j, h, hs, hn⟩)
    · rw [h]
      exact ⟨_, rfl⟩
    · rw [h]
      cases j <;> first | exact absurd rfl hn | exact absurd rfl (hs _) | exact ⟨_, rfl⟩

/-- Witness of C16 (amended): the reply of the test suite gives the string of
its result as it stands, and a numeric result gives an error. -/
theorem block_number_verbatim_witness :
    (Client.GetBlockNumber (stubClient (resultReply (.str "0x1234567")))
        = ("0x1234567", none) ↔
      ((some (Bytes.json (.str "0x1234567")) : RawMessage) =
          some (.json (.str "0x1234567")) ∨
        ((some (Bytes.json (.str "0x1234567")) : RawMessage) = some (.json .null) ∧
          "0x1234567" = "")) ) ∧
    ∃ e, Client.GetBlockNumber (stubClient (resultReply (.int 19088743))) = ("", some e) :=
  ⟨(block_number_verbatim (stubClient (resultReply (.str "0x1234567")))
      (.json (resultEnvelope 2 (.str "0x1234567")))
      { JSONRPC := "2.0", Result := some (.json (.str "0x1234567")), ID := 2 }
      rfl rfl rfl).1 "0x1234567",
   (block_number_verbatim (stubClient (resultReply (.int 19088743)))
      (.json (resultEnvelope 2 (.int 19088743)))
      { JSONRPC := "2.0", Result := some (.json (.int 19088743)), ID := 2 }
      rfl rfl rfl).2
      (Or.inr ⟨.int 19088743, rfl, fun _ h => JSON.noConfusion h,
        fun h => JSON.noConfusion h⟩)⟩

end BlockchainClientApp
